import Mathlib

/-!
Verification development for the `nota-explicativa-bot` repository.

The Python sources are shallowly embedded as executable Lean definitions:
strings become `String` / `List Char`, Python `float` monetary values become
exact rationals (`ℚ`), `None`-able values become `Option`, dictionaries with
a fixed shape become structures, and code that can raise an exception returns
`Except String α`.  Each definition carries a doc comment pointing to the
source function it translates.
-/

namespace NEB

/-! ## Character and string primitives (Python semantics) -/

/-- Model of Python's ASCII decimal-digit test (the regex class `\d` as it is
used by the sources, which only ever face ASCII digits). -/
def pyIsDigit (c : Char) : Bool := '0' ≤ c && c ≤ '9'

/-- Numeric value of an ASCII digit character. -/
def digitVal (c : Char) : ℕ := c.toNat - 48

/-- Model of Python's `str.strip()` whitespace set / the regex class `\s`. -/
def pyIsSpace (c : Char) : Bool :=
  c = ' ' || c = '\t' || c = '\n' || c = '\r' || c = '\x0b' || c = '\x0c'

/-- Python `str.lower()` restricted to the characters that occur in the
repository's keyword tables (ASCII plus the Portuguese accented letters). -/
def pyLower (c : Char) : Char :=
  if 'A' ≤ c && c ≤ 'Z' then Char.ofNat (c.toNat + 32)
  else if c = 'Á' then 'á' else if c = 'Â' then 'â' else if c = 'Ã' then 'ã'
  else if c = 'É' then 'é' else if c = 'Ê' then 'ê'
  else if c = 'Í' then 'í'
  else if c = 'Ó' then 'ó' else if c = 'Ô' then 'ô' else if c = 'Õ' then 'õ'
  else if c = 'Ú' then 'ú' else if c = 'Ç' then 'ç' else if c = 'À' then 'à'
  else c

/-- Python `str.upper()` restricted to the same character repertoire. -/
def pyUpper (c : Char) : Char :=
  if 'a' ≤ c && c ≤ 'z' then Char.ofNat (c.toNat - 32)
  else if c = 'á' then 'Á' else if c = 'â' then 'Â' else if c = 'ã' then 'Ã'
  else if c = 'é' then 'É' else if c = 'ê' then 'Ê'
  else if c = 'í' then 'Í'
  else if c = 'ó' then 'Ó' else if c = 'ô' then 'Ô' else if c = 'õ' then 'Õ'
  else if c = 'ú' then 'Ú' else if c = 'ç' then 'Ç' else if c = 'à' then 'À'
  else c

def lowerL (l : List Char) : List Char := l.map pyLower

def upperL (l : List Char) : List Char := l.map pyUpper

/-- `startsList pre l` holds when `pre` is an initial segment of `l`. -/
def startsList : List Char → List Char → Bool
  | [], _ => true
  | _ :: _, [] => false
  | p :: ps, c :: cs => p == c && startsList ps cs

/-- Model of Python's `needle in hay` substring test on strings. -/
def hasSubL (needle hay : List Char) : Bool :=
  match hay with
  | [] => needle.isEmpty
  | _ :: t => startsList needle hay || hasSubL needle t

def hasSub (needle : String) (hay : List Char) : Bool := hasSubL needle.data hay

/-- Membership test for a single character (Python `c in s`). -/
def hasChar (x : Char) (l : List Char) : Bool := l.any (fun c => c == x)

/-- Python `str.strip()`. -/
def pyStrip (l : List Char) : List Char :=
  ((l.dropWhile pyIsSpace).reverse.dropWhile pyIsSpace).reverse

/-- Python `s.replace(x, "")` for a single-character `x`. -/
def eraseAllCh (x : Char) (l : List Char) : List Char := l.filter (fun c => c != x)

/-- Python `s.replace(x, y)` for single characters `x`, `y`. -/
def replAllCh (x y : Char) (l : List Char) : List Char :=
  l.map (fun c => if c == x then y else c)

/-! ## `src/utils.py` : monetary conversion -/

/-- Character set kept by the cleaning step of `converter_valor_br_para_float`
(`re.sub(r'[^\d.,]', '', ...)` in `src/utils.py:61`). -/
def keepMoneyChar (c : Char) : Bool := pyIsDigit c || c == '.' || c == ','

/-- Value of a string of digit characters read left to right. -/
def natFromDigits (l : List Char) : ℕ := l.foldl (fun a c => 10 * a + digitVal c) 0

/-- Model of Python `float(s)` on the cleaned strings reaching
`src/utils.py:77`: after the separator rewriting those strings contain only
ASCII digits and `.`.  A string Python's `float` rejects (`""`, `"."`, two or
more dots, or an unexpected character) yields `none`; otherwise the exact
rational value of the decimal literal. -/
def pyFloatOfClean (l : List Char) : Option ℚ :=
  if ¬ (l.all (fun c => pyIsDigit c || c == '.')) then none
  else if 2 ≤ l.count '.' then none
  else if l.count '.' = 1 then
    let a := l.takeWhile (fun c => c != '.')
    let b := (l.dropWhile (fun c => c != '.')).tail
    if a = [] ∧ b = [] then none
    else some ((natFromDigits a : ℚ) + (natFromDigits b : ℚ) / (10 : ℚ) ^ b.length)
  else if l = [] then none
  else some (natFromDigits l)

/-- The cleaned character list `limpo` of `src/utils.py:61`. -/
def limpoOf (s : String) : List Char := (pyStrip s.data).filter keepMoneyChar

/-- The separator rewriting of `src/utils.py:66-75`: with a comma present,
thousands dots are removed and the comma becomes the decimal dot; with two or
more dots and no comma, all dots are removed; otherwise unchanged. -/
def brDecimalRewrite (limpo : List Char) : List Char :=
  if hasChar ',' limpo then replAllCh ',' '.' (eraseAllCh '.' limpo)
  else if hasChar '.' limpo ∧ 2 ≤ limpo.count '.' then eraseAllCh '.' limpo
  else limpo

/-- Translation of `converter_valor_br_para_float` (`src/utils.py:41-79`).
Python floats are modeled as exact rationals; every `ValueError` path of the
original returns `0.0`, modeled by the `none ⇒ 0` fallback. -/
def converter_valor_br_para_float (s : String) : ℚ :=
  if s = "" then 0
  else if limpoOf s = [] then 0
  else (pyFloatOfClean (brDecimalRewrite (limpoOf s))).getD 0

/-! ## `src/utils.py` : monetary formatting -/

/-- Little-endian digit rendering with a `,` thousands separator inserted
after every third digit, as produced by Python's format specifier `,` in
`f"{valor:,.2f}"`.  The counter is the number of digits still allowed before
the next separator. -/
def groupDigitsLE : List ℕ → ℕ → List Char
  | [], _ => []
  | d :: ds, 0 => ',' :: Nat.digitChar d :: groupDigitsLE ds 2
  | d :: ds, k + 1 => Nat.digitChar d :: groupDigitsLE ds k

/-- Little-endian base-10 digits of `m` (with `[0]` for `m = 0`, matching the
single `0` Python prints). -/
def intDigitsLE (m : ℕ) : List ℕ := if m = 0 then [0] else Nat.digits 10 m

/-- The integer part of Python's `f"{m:,}"`: digits grouped by three with
commas. -/
def pyCommaFormat (m : ℕ) : List Char := (groupDigitsLE (intDigitsLE m) 3).reverse

/-- The plain (ungrouped) big-endian digit string of the integer part `m`. -/
def digitStr (m : ℕ) : List Char := ((intDigitsLE m).map Nat.digitChar).reverse

/-- The `replace(",", "X").replace(".", ",").replace("X", ".")` dance of
`src/utils.py:120` swaps commas and dots (the formatted text contains no
`X`). -/
def swapDotComma (c : Char) : Char :=
  if c == ',' then '.' else if c == '.' then ',' else c

/-- Translation of `formatar_moeda_br` (`src/utils.py:110-123`).  The
non-negative float argument is modeled as an exact rational; `f"{v:,.2f}"` is
modeled on the representable grid of hundredths (the claims only exercise
exactly representable amounts, for which no rounding occurs). -/
def centsOf (v : ℚ) : ℕ := (Int.floor (v * 100 + 1 / 2)).toNat

def formatar_moeda_br (v : ℚ) : String :=
  if v = 0 then "R$ 0,00"
  else
    "R$ " ++ String.mk
      ((pyCommaFormat (centsOf v / 100) ++
        ('.' :: [Nat.digitChar (centsOf v % 100 / 10), Nat.digitChar (centsOf v % 100 % 10)])).map
        swapDotComma)

/-! ## `src/parsers/base.py` : the result accumulator -/

/-- Python truthiness of an `Optional[str]` (`None` and `""` are falsy). -/
def pyTruthyOptStr : Option String → Bool
  | none => false
  | some s => s != ""

/-- Python falsiness of an `Optional[str]` (used by `if not x:` checks). -/
def pyFalsyOptStr (o : Option String) : Bool := !(pyTruthyOptStr o)

/-- Translation of the dataclass `ResultadoParsers`
(`src/parsers/base.py:21-65`).  The three nested agency-schema dictionaries
carry dynamically shaped data; they are modeled as association lists, of
which the embedded methods only ever observe emptiness (Python dict
truthiness). -/
structure ResultadoParsers where
  requerente : Option String
  cnpj : Option String
  data_consulta_rf : Option String
  data_consulta_sefaz : Option String
  data_consulta_fgts : Option String
  bloco_receita_federal : Option String
  bloco_fgts : Option String
  sefaz_rows : List (List String)
  municipais_rows : List (List String)
  parcelamentos_rows : List (List String)
  sefaz_estadual : List (String × String)
  fgts : List (String × String)
  receita_federal : List (String × String)
  deriving DecidableEq

/-- Translation of `ResultadoParsers.tem_algum_dado`
(`src/parsers/base.py:77-104`).  Note that the final check
(`base.py:101`) reads `if self.sefaz_estadual or self.fgts:` and does not
consult `self.receita_federal`. -/
def ResultadoParsers.tem_algum_dado (r : ResultadoParsers) : Bool :=
  ([r.requerente, r.cnpj, r.data_consulta_rf, r.data_consulta_sefaz, r.data_consulta_fgts,
      r.bloco_receita_federal, r.bloco_fgts].any pyTruthyOptStr) ||
    (!r.sefaz_rows.isEmpty || !r.municipais_rows.isEmpty || !r.parcelamentos_rows.isEmpty) ||
    (!r.sefaz_estadual.isEmpty || !r.fgts.isEmpty)

/-- An accumulator whose only populated field is the nested
`receita_federal` schema (as filled by the Federal Revenue parser). -/
def accSoReceita : ResultadoParsers where
  requerente := none
  cnpj := none
  data_consulta_rf := none
  data_consulta_sefaz := none
  data_consulta_fgts := none
  bloco_receita_federal := none
  bloco_fgts := none
  sefaz_rows := []
  municipais_rows := []
  parcelamentos_rows := []
  sefaz_estadual := []
  fgts := []
  receita_federal := [("contribuicoes", "…")]

/-! ## `src/core.py` : consolidated report schema and the no-debt rule -/

/-- Item of `relatorio["receita_federal"]["simples"]["debitos"]`
(`src/core.py`, consolidation of Simples debts). -/
structure SimplesRelItem where
  competencia : Option String
  codigo : Option String
  descricao : Option String
  valor : Option ℚ
  deriving DecidableEq

/-- Section `relatorio["receita_federal"]["simples"]`
(`src/core.py:141-150`). -/
structure SimplesSec where
  tem_debito_em_aberto : Bool
  debitos : List SimplesRelItem
  tem_parcelamento : Bool
  parcelamento_tipo : Option String
  parcelas_em_atraso : Option ℕ
  observacao : Option String
  deriving DecidableEq

/-- Item of `relatorio["sefaz"]["ipva"]` (`src/core.py:758`). -/
structure IpvaRelItem where
  ano : Option ℤ
  valor : Option ℚ
  situacao : Option String
  deriving DecidableEq

/-- Item of `relatorio["sefaz"]["fronteira"]["itens"]` (`src/core.py:771`). -/
structure FronteiraRelItem where
  competencia : Option String
  valor : Option ℚ
  deriving DecidableEq

/-- Section `relatorio["sefaz"]["fronteira"]` (`src/core.py:186-189`). -/
structure FronteiraSec where
  tem_em_aberto : Bool
  itens : List FronteiraRelItem
  deriving DecidableEq

/-- Item of `relatorio["sefaz"]["debitos_fiscais"]["itens"]`
(`src/core.py:781`). -/
structure DebFiscRelItem where
  descricao : Option String
  competencia : Option String
  valor : Option ℚ
  deriving DecidableEq

/-- Section `relatorio["sefaz"]["debitos_fiscais"]` (`src/core.py:190-193`). -/
structure DebFiscSec where
  tem : Bool
  itens : List DebFiscRelItem
  deriving DecidableEq

/-- Section `relatorio["sefaz"]` (`src/core.py:183-194`). -/
structure SefazSec where
  situacao : Option String
  ipva : List IpvaRelItem
  fronteira : FronteiraSec
  debitos_fiscais : DebFiscSec
  observacao : Option String
  deriving DecidableEq

/-- Item of `relatorio["fgts"]["debitos"]` (`src/core.py:802`). -/
structure FgtsRelItem where
  competencia : Option String
  valor : Option ℚ
  situacao : Option String
  deriving DecidableEq

/-- Section `relatorio["fgts"]` (`src/core.py:196-199`). -/
structure FgtsSec where
  situacao : Option String
  debitos : List FgtsRelItem
  observacao : Option String
  deriving DecidableEq

/-- Item of `relatorio["pgfn"]["inscricoes"]`. -/
structure PgfnRelItem where
  inscricao : String
  situacao : String
  deriving DecidableEq

/-- Section `relatorio["pgfn"]` (`src/core.py:169-180`, the parts read by
`aplicar_regra_sem_debito`). -/
structure PgfnSec where
  tem_debito : Bool
  inscricoes : List PgfnRelItem
  deriving DecidableEq

/-- The consolidated report sections touched by `aplicar_regra_sem_debito`
(`src/core.py:124-205`, schema of `criar_schema_vazio`; the remaining
sections are irrelevant to the rule and omitted). -/
structure Relatorio where
  receita_federal_simples : SimplesSec
  sefaz : SefazSec
  fgts : FgtsSec
  pgfn : PgfnSec
  deriving DecidableEq

def semDebitoMsg : String := "Não há débitos identificados no período analisado."

/-- Translation of `aplicar_regra_sem_debito` (`src/core.py:821-848`).
The four branches run in source order on the mutable report; the mutation is
modeled by sequential functional updates.  Only the fiscal-debt branch
(`src/core.py:838`) guards against an already-set observation; the Simples,
border-tax and FGTS branches assign unconditionally.  The PGFN branch of the
source is an explicit no-op. -/
def aplicar_regra_sem_debito (rel : Relatorio) : Relatorio :=
  let rel1 :=
    if rel.receita_federal_simples.tem_debito_em_aberto = false ∧
        rel.receita_federal_simples.debitos = [] then
      { rel with receita_federal_simples :=
          { rel.receita_federal_simples with observacao := some semDebitoMsg } }
    else rel
  let rel2 :=
    if rel1.sefaz.fronteira.tem_em_aberto = false ∧ rel1.sefaz.fronteira.itens = [] then
      { rel1 with sefaz := { rel1.sefaz with observacao := some semDebitoMsg } }
    else rel1
  let rel3 :=
    if rel2.sefaz.debitos_fiscais.tem = false ∧ rel2.sefaz.debitos_fiscais.itens = [] then
      if pyFalsyOptStr rel2.sefaz.observacao then
        { rel2 with sefaz := { rel2.sefaz with observacao := some semDebitoMsg } }
      else rel2
    else rel2
  let rel4 :=
    if rel3.fgts.debitos = [] then
      { rel3 with fgts := { rel3.fgts with observacao := some semDebitoMsg } }
    else rel3
  rel4

def certidaoObsMsg : String :=
  "Documento é certidão; não contém detalhamento de IPVA/fronteira/débitos fiscais."

/-- A consolidated report as produced for a SEFAZ regular certificate: all
debt lists empty and the certificate observation already set
(`src/parsers/sefaz.py:370` via `src/core.py:790`). -/
def relCertidao : Relatorio where
  receita_federal_simples :=
    { tem_debito_em_aberto := false, debitos := [], tem_parcelamento := false,
      parcelamento_tipo := none, parcelas_em_atraso := none, observacao := none }
  sefaz :=
    { situacao := some "REGULAR", ipva := [],
      fronteira := { tem_em_aberto := false, itens := [] },
      debitos_fiscais := { tem := false, itens := [] },
      observacao := some certidaoObsMsg }
  fgts := { situacao := none, debitos := [], observacao := none }
  pgfn := { tem_debito := false, inscricoes := [] }

/-- The report of `relCertidao` with a non-empty border-tax list (so the
unconditional border-tax branch of the rule does not fire). -/
def relComFronteira : Relatorio :=
  { relCertidao with sefaz :=
      { relCertidao.sefaz with fronteira :=
          { tem_em_aberto := true, itens := [{ competencia := some "01/2024", valor := none }] } } }

/-! ## Shared regex building blocks -/

/-- Case-insensitive literal match: consumes `kw` from the front of `l`
(using Python's `lower` folding) and returns the remainder. -/
def matchCI : List Char → List Char → Option (List Char)
  | [], rest => some rest
  | _ :: _, [] => none
  | k :: ks, c :: cs => if pyLower c == pyLower k then matchCI ks cs else none

def startsCI (kw : String) (l : List Char) : Bool := (matchCI kw.data l).isSome

/-- Matcher for the regex `\s+`: at least one whitespace character,
consumed greedily. -/
def matchWS1 (l : List Char) : Option (List Char) :=
  match l with
  | c :: cs => if pyIsSpace c then some (cs.dropWhile pyIsSpace) else none
  | [] => none

/-- Consume exactly `n` ASCII digits (regex `\d{n}`), returning the digits
and the remainder. -/
def takeDigits : ℕ → List Char → Option (List Char × List Char)
  | 0, l => some ([], l)
  | _ + 1, [] => none
  | n + 1, c :: cs =>
    if pyIsDigit c then
      match takeDigits n cs with
      | some (ds, rest) => some (c :: ds, rest)
      | none => none
    else none

/-- Optional final `s` (regex `s?`, greedy, case-insensitive). -/
def optS (l : List Char) : List Char :=
  match l with
  | c :: cs => if pyLower c == 's' then cs else l
  | [] => l

/-! ## `src/parsers/fgts.py` : the FGTS parser -/

/-- Translation of `_normalizar_competencia`
(`src/parsers/fgts.py:75-101`; the textually identical function also appears
in `src/parsers/receita_federal.py:93-119`).  Branch 1 is the anchored match
of `(\d{2})/(\d{4})`, branch 2 of `(\d{4})-(\d{2})` (returning the stripped
input unchanged), branch 3 of `(\d{4})` (assuming January). -/
def normMMYYYY (l : List Char) : Option String :=
  match l with
  | a :: b :: s :: c :: d :: e :: f :: _ =>
    if pyIsDigit a && pyIsDigit b && (s == '/') && pyIsDigit c && pyIsDigit d &&
        pyIsDigit e && pyIsDigit f
    then some (String.mk [c, d, e, f, '-', a, b]) else none
  | _ => none

def normYYYYMMpre (l : List Char) : Option String :=
  match l with
  | a :: b :: c :: d :: h :: e :: f :: _ =>
    if pyIsDigit a && pyIsDigit b && pyIsDigit c && pyIsDigit d && (h == '-') &&
        pyIsDigit e && pyIsDigit f
    then some (String.mk l) else none
  | _ => none

def normYYYYpre (l : List Char) : Option String :=
  match l with
  | a :: b :: c :: d :: _ =>
    if pyIsDigit a && pyIsDigit b && pyIsDigit c && pyIsDigit d
    then some (String.mk [a, b, c, d] ++ "-01") else none
  | _ => none

def normalizarCompetencia (comp : String) : Option String :=
  if comp = "" then none
  else
    match normMMYYYY (pyStrip comp.data) with
    | some r => some r
    | none =>
      match normYYYYMMpre (pyStrip comp.data) with
      | some r => some r
      | none => normYYYYpre (pyStrip comp.data)

/-- Group 1 of the pendency-window regex of `src/parsers/fgts.py:138`
(`pend[êe]ncias?|em\s+atraso|não\s+recolhido|débitos?|debitos?`, IGNORECASE),
attempted at the head of `l`; returns the remainder after the matched
keyword.  Alternatives are tried in the regex's order. -/
def pendKeyAt4 (l : List Char) : Option (List Char) :=
  match matchCI "débito".data l with
  | some r1 => some (optS r1)
  | none =>
    match matchCI "debito".data l with
    | some r1 => some (optS r1)
    | none => none

def pendKeyAt3 (l : List Char) : Option (List Char) :=
  match matchCI "não".data l with
  | some r1 =>
    match matchWS1 r1 with
    | some r2 =>
      match matchCI "recolhido".data r2 with
      | some r3 => some r3
      | none => pendKeyAt4 l
    | none => pendKeyAt4 l
  | none => pendKeyAt4 l

def pendKeyAt2 (l : List Char) : Option (List Char) :=
  match matchCI "em".data l with
  | some r1 =>
    match matchWS1 r1 with
    | some r2 =>
      match matchCI "atraso".data r2 with
      | some r3 => some r3
      | none => pendKeyAt3 l
    | none => pendKeyAt3 l
  | none => pendKeyAt3 l

def pendKeyAt (l : List Char) : Option (List Char) :=
  match matchCI "pend".data l with
  | some r1 =>
    match r1 with
    | c :: r2 =>
      if pyLower c == 'ê' || pyLower c == 'e' then
        match matchCI "ncia".data r2 with
        | some r3 => some (optS r3)
        | none => pendKeyAt2 l
      else pendKeyAt2 l
    | [] => pendKeyAt2 l
  | none => pendKeyAt2 l

/-- Leftmost occurrence of the pendency keyword: returns the suffix starting
at the match together with the remainder after the keyword. -/
def findPendKey : List Char → Option (List Char × List Char)
  | [] => none
  | c :: t =>
    match pendKeyAt (c :: t) with
    | some rest => some (c :: t, rest)
    | none => findPendKey t

/-- Distance (in characters) from the head of `l` to the first position
where the lookahead `(?=Validade|Certificação)` holds, or to the end of the
text (`$`). -/
def findStopDist : List Char → ℕ
  | [] => 0
  | c :: t =>
    if startsCI "Validade" (c :: t) || startsCI "Certificação" (c :: t) then 0
    else 1 + findStopDist t

/-- The lazy-dot-star pendency window of `src/parsers/fgts.py:136-143`:
from the keyword match up to the first `Validade`/`Certificação` marker or
the end of the text. -/
def janelaPendencias (texto : List Char) : Option (List Char) :=
  match findPendKey texto with
  | none => none
  | some (s, rest) => some (s.take ((s.length - rest.length) + findStopDist rest))

/-- `texto_busca` of `src/parsers/fgts.py:146`: the pendency window when one
was found (it is never empty), otherwise the whole text. -/
def textoBusca (texto : List Char) : List Char := (janelaPendencias texto).getD texto

/-- One competency token of `re.finditer(r'(\d{2}/\d{4}|\d{4})', ...)`
attempted at the head of `l`: either `MM/YYYY` or four digits, consuming the
match. -/
def tokenAt (l : List Char) : Option (List Char × List Char) :=
  match l with
  | a :: b :: s :: rest =>
    if pyIsDigit a && pyIsDigit b && (s == '/') then
      match takeDigits 4 rest with
      | some (ds, rest2) => some ([a, b, '/'] ++ ds, rest2)
      | none =>
        match takeDigits 4 l with
        | some (ds, rest2) => some (ds, rest2)
        | none => none
    else
      match takeDigits 4 l with
      | some (ds, rest2) => some (ds, rest2)
      | none => none
  | _ =>
    match takeDigits 4 l with
    | some (ds, rest2) => some (ds, rest2)
    | none => none

/-- All matches of the competency-token regex, scanning left to right and
consuming each match (`re.finditer` semantics).  The fuel argument (the text
length) keeps the recursion structural; every step consumes at least one
character. -/
def fgtsTokensGo : ℕ → List Char → List String
  | 0, _ => []
  | _, [] => []
  | fuel + 1, c :: t =>
    match tokenAt (c :: t) with
    | some (tok, rest) => String.mk tok :: fgtsTokensGo fuel rest
    | none => fgtsTokensGo fuel t

def fgtsTokens (l : List Char) : List String := fgtsTokensGo l.length l

/-- The validity filter of `src/parsers/fgts.py:155`: an anchored
`\d{2}/\d{4}` match or a bare four-digit year. -/
def validaComp (t : String) : Bool :=
  (match t.data with
   | a :: b :: s :: c :: d :: e :: f :: _ =>
     pyIsDigit a && pyIsDigit b && (s == '/') && pyIsDigit c && pyIsDigit d &&
       pyIsDigit e && pyIsDigit f
   | _ => false) ||
  (t.length == 4 && t.data.all pyIsDigit)

def insertUnique (xs : List String) (x : String) : List String :=
  if xs.contains x then xs else xs ++ [x]

/-- The de-duplicated candidate competencies collected from the pendency
window (`src/parsers/fgts.py:149-156`).  Python stores them in a `set`,
whose iteration order is unspecified; the embedding keeps first-occurrence
order. -/
def fgtsCompetencias (texto : List Char) : List String :=
  ((fgtsTokens (textoBusca texto)).filter validaComp).foldl insertUnique []

structure FgtsDebito where
  competencia : String
  valor : Option ℚ
  situacao : String
  deriving DecidableEq

structure FgtsResultado where
  situacao : Option String
  debitos : List FgtsDebito
  observacao : Option String
  deriving DecidableEq

/-- The REGULAR test of `src/parsers/fgts.py:122-127`: a certificate phrase
(or "crf") together with a regularity phrase. -/
def fgtsRegular (tl : List Char) : Bool :=
  (hasSub "certificado de regularidade do fgts" tl || hasSub "crf" tl) &&
    (hasSub "encontra-se em situação regular" tl || hasSub "situação regular" tl)

/-- Translation of `processar_fgts` (`src/parsers/fgts.py:108-172`). -/
def processar_fgts (texto : String) : FgtsResultado :=
  if fgtsRegular (lowerL texto.data) then
    { situacao := some "REGULAR", debitos := [], observacao := none }
  else
    let debitos := (fgtsCompetencias texto.data).foldl
      (fun acc comp =>
        match normalizarCompetencia comp with
        | some n => acc ++ [{ competencia := n, valor := none, situacao := "EM ABERTO" }]
        | none => acc) []
    { situacao := some "IRREGULAR", debitos := debitos,
      observacao := if debitos = [] then some semDebitoMsg else none }

/-- Shape test for a seven-character `MM/YYYY` token. -/
def isMMYYYYtok (t : String) : Bool :=
  match t.data with
  | [a, b, s, c, d, e, f] =>
    pyIsDigit a && pyIsDigit b && (s == '/') && pyIsDigit c && pyIsDigit d &&
      pyIsDigit e && pyIsDigit f
  | _ => false

/-- Shape test for a normalized `YYYY-MM` competency string. -/
def isYYYYMM (s : String) : Bool :=
  match s.data with
  | [a, b, c, d, h, e, f] =>
    pyIsDigit a && pyIsDigit b && pyIsDigit c && pyIsDigit d && (h == '-') &&
      pyIsDigit e && pyIsDigit f
  | _ => false

/-! ## `src/parsers/receita_federal.py` : helpers -/

/-- Python `" ".join(s.split())` as used by `_limpa`
(`src/parsers/receita_federal.py:50-54`, `src/parsers/sefaz.py:32-36`,
`src/parsers/fgts.py:28-32`): every whitespace run collapses to one space
and the ends are trimmed. -/
def limpaGo : List Char → Bool → List Char
  | [], _ => []
  | c :: t, sawSpace =>
    if pyIsSpace c then limpaGo t true
    else if sawSpace then ' ' :: c :: limpaGo t false
    else c :: limpaGo t false

def limpaL (l : List Char) : List Char :=
  limpaGo (l.dropWhile pyIsSpace) false

/-- Python `re.sub(r'\s+', ' ', s)`: whitespace runs become single spaces,
ends untrimmed. -/
def squashWsGo : List Char → Bool → List Char
  | [], pending => if pending then [' '] else []
  | c :: t, pending =>
    if pyIsSpace c then squashWsGo t true
    else if pending then ' ' :: c :: squashWsGo t false
    else c :: squashWsGo t false

def squashWsAll (l : List Char) : List Char := squashWsGo l false

/-- Split on newline characters (Python `str.split('\n')`). -/
def splitOnNL : List Char → List (List Char)
  | [] => [[]]
  | c :: t =>
    if c = '\n' then [] :: splitOnNL t
    else
      match splitOnNL t with
      | h :: rest => (c :: h) :: rest
      | [] => [[c]]

/-- Greedy optional single character (regex `x?`). -/
def optChar (x : Char) (l : List Char) : List Char :=
  match l with
  | c :: t => if c == x then t else l
  | [] => l

def dropWS (l : List Char) : List Char := l.dropWhile pyIsSpace

/-- Generic leftmost search: try the at-position matcher `p` at every
position, returning the suffix at the match start and the remainder after
the match. -/
def findPatGo (p : List Char → Option (List Char)) : List Char → Option (List Char × List Char)
  | [] =>
    match p [] with
    | some r => some ([], r)
    | none => none
  | c :: t =>
    match p (c :: t) with
    | some r => some (c :: t, r)
    | none => findPatGo p t

/-- The tax-code regex `(\d{4}-\d{2}|\d{4})` attempted at the head of `l`
(alternatives in order), returning the captured text and the remainder. -/
def codigoAt (l : List Char) : Option (String × List Char) :=
  match takeDigits 4 l with
  | some (ds, rest) =>
    match rest with
    | '-' :: r2 =>
      match takeDigits 2 r2 with
      | some (ds2, r3) => some (String.mk (ds ++ '-' :: ds2), r3)
      | none => some (String.mk ds, rest)
    | _ => some (String.mk ds, rest)
  | none => none

def findCodigo : List Char → Option String
  | [] => none
  | c :: t =>
    match codigoAt (c :: t) with
    | some (s, _) => some s
    | none => findCodigo t

/-- The competency regex `(\d{2}/\d{4})` attempted at the head of `l`. -/
def mmyyyyAt (l : List Char) : Option (String × List Char) :=
  match takeDigits 2 l with
  | some (d2, rest) =>
    match rest with
    | '/' :: r2 =>
      match takeDigits 4 r2 with
      | some (d4, r3) => some (String.mk (d2 ++ '/' :: d4), r3)
      | none => none
    | _ => none
  | none => none

def findMMYYYY : List Char → Option String
  | [] => none
  | c :: t =>
    match mmyyyyAt (c :: t) with
    | some (s, _) => some s
    | none => findMMYYYY t

def isDigitDot (c : Char) : Bool := pyIsDigit c || c == '.'

/-- The monetary regex `([\d\.]+,\d{2})` attempted at the head of `l`: a
maximal digit/dot run, a comma, then two digits (the regex engine cannot
shorten the run because `,` is outside the class). -/
def moneyP1At (l : List Char) : Option (String × List Char) :=
  let run := l.takeWhile isDigitDot
  match run with
  | [] => none
  | _ :: _ =>
    match l.dropWhile isDigitDot with
    | ',' :: r2 =>
      match takeDigits 2 r2 with
      | some (d2, r3) => some (String.mk (run ++ ',' :: d2), r3)
      | none => none
    | _ => none

/-- One or two digits, greedy (regex `\d{1,2}`). -/
def take1or2Digits (l : List Char) : Option (List Char × List Char) :=
  match l with
  | a :: rest =>
    if pyIsDigit a then
      match rest with
      | b :: r2 => if pyIsDigit b then some ([a, b], r2) else some ([a], rest)
      | [] => some ([a], [])
    else none
  | [] => none

/-- The monetary regex `([\d\.]+,\d{1,2})` attempted at the head of `l`. -/
def moneyP2At (l : List Char) : Option (String × List Char) :=
  let run := l.takeWhile isDigitDot
  match run with
  | [] => none
  | _ :: _ =>
    match l.dropWhile isDigitDot with
    | ',' :: r2 =>
      match take1or2Digits r2 with
      | some (ds, r3) => some (String.mk (run ++ ',' :: ds), r3)
      | none => none
    | _ => none

/-- The monetary regex `R\$\s*([\d\.]+,\d{2})` attempted at the head of `l`
(case-sensitive, capture without the prefix). -/
def moneyP3At (l : List Char) : Option (String × List Char) :=
  match l with
  | 'R' :: '$' :: r1 => moneyP1At (dropWS r1)
  | _ => none

/-- The monetary regex `([\d]+,\d{2})` attempted at the head of `l`. -/
def moneyP4At (l : List Char) : Option (String × List Char) :=
  let run := l.takeWhile pyIsDigit
  match run with
  | [] => none
  | _ :: _ =>
    match l.dropWhile pyIsDigit with
    | ',' :: r2 =>
      match takeDigits 2 r2 with
      | some (d2, r3) => some (String.mk (run ++ ',' :: d2), r3)
      | none => none
    | _ => none

def findMoney (p : List Char → Option (String × List Char)) : List Char → Option String
  | [] => none
  | c :: t =>
    match p (c :: t) with
    | some (s, _) => some s
    | none => findMoney p t

/-- Translation of `_extrair_valor_de_celula`
(`src/parsers/receita_federal.py:122-142`; the identical helper also appears
in `src/parsers/sefaz.py:140-160`): the four monetary patterns are tried in
order on the cleaned cell and the first match is converted. -/
def extrairValorDeCelula (celula : String) : ℚ :=
  if celula = "" then 0
  else
    match findMoney moneyP1At (limpaL celula.data) with
    | some g => converter_valor_br_para_float g
    | none =>
      match findMoney moneyP2At (limpaL celula.data) with
      | some g => converter_valor_br_para_float g
      | none =>
        match findMoney moneyP3At (limpaL celula.data) with
        | some g => converter_valor_br_para_float g
        | none =>
          match findMoney moneyP4At (limpaL celula.data) with
          | some g => converter_valor_br_para_float g
          | none => 0

/-! ## `src/parsers/receita_federal.py` : table-column identification -/

def TERMOS_CONSOLIDADO : List String :=
  ["SDO.DEV.CONS", "SDO DEV CONS", "SALDO DEVEDOR CONSOLIDADO",
   "SALDO CONSOLIDADO", "CONSOLIDADO", "SDO.DEV.CONS."]

def TERMOS_DEVEDOR : List String := ["SDO.DEVEDOR", "SDO DEVEDOR", "SALDO DEVEDOR"]

def TERMOS_ORIGINAL : List String := ["VL.ORIGINAL", "VALOR ORIGINAL", "ORIGINAL"]

/-- Column indices of `_identificar_colunas_tabela`
(`src/parsers/receita_federal.py:145-181`); `-1` means "not found" as in the
source. -/
structure ColIdx where
  saldo_devedor : ℤ
  saldo_consolidado : ℤ
  valor_original : ℤ
  deriving DecidableEq

def identColGo : List String → ℕ → ColIdx → ColIdx
  | [], _, acc => acc
  | cell :: rest, i, acc =>
    if cell = "" then identColGo rest (i + 1) acc
    else
      identColGo rest (i + 1)
        (if TERMOS_CONSOLIDADO.any (fun t => hasSub t (upperL (limpaL cell.data))) then
          { acc with saldo_consolidado := (i : ℤ) }
        else if TERMOS_DEVEDOR.any (fun t => hasSub t (upperL (limpaL cell.data))) then
          { acc with saldo_devedor := (i : ℤ) }
        else if TERMOS_ORIGINAL.any (fun t => hasSub t (upperL (limpaL cell.data))) then
          { acc with valor_original := (i : ℤ) }
        else acc)

def identificarColunas (cab : List String) : ColIdx :=
  identColGo cab 0 { saldo_devedor := -1, saldo_consolidado := -1, valor_original := -1 }

/-- One priority step of `_extrair_valor_da_linha`
(`src/parsers/receita_federal.py:190-204`): use column `i` when it is inside
the row, the cell is truthy and its value is positive. -/
def tryCol (linha : List String) (i : ℤ) : Option ℚ :=
  if 0 ≤ i ∧ i.toNat < linha.length then
    if (linha.getD i.toNat "") ≠ "" then
      if extrairValorDeCelula (linha.getD i.toNat "") > 0 then
        some (extrairValorDeCelula (linha.getD i.toNat ""))
      else none
    else none
  else none

/-- Translation of `_extrair_valor_da_linha`
(`src/parsers/receita_federal.py:184-214`). -/
def extrairValorDaLinha (linha : List String) (idx : ColIdx) : Option ℚ :=
  match (if 0 ≤ idx.saldo_consolidado then tryCol linha idx.saldo_consolidado else none) with
  | some v => some v
  | none =>
    match (if 0 ≤ idx.saldo_devedor then tryCol linha idx.saldo_devedor else none) with
    | some v => some v
    | none =>
      let vmax := linha.foldl
        (fun acc cell =>
          if cell ≠ "" then
            if extrairValorDeCelula cell > acc then extrairValorDeCelula cell else acc
          else acc) 0
      if vmax > 0 then some vmax else none

/-! ## `src/parsers/receita_federal.py` : row classification -/

def CODIGOS_CP_SEGURO : List String := ["1082-01", "1099-01"]

def CODIGOS_CP_PATRONAL : List String := ["1138-01", "1646-01"]

def CODIGOS_CP_TERCEIROS : List String :=
  ["1170-01", "1176-01", "1191-01", "1196-01", "1200-01"]

def CODIGOS_TRIB_IRRF : List String := ["0561-07"]

def CODIGOS_TRIB_PIS : List String := ["8109-02", "0810"]

def CODIGOS_TRIB_COFINS : List String := ["2172-01", "4493"]

def TERMOS_SEGURO : List String :=
  ["CP-SEGUR", "CP SEGUR", "CP SEGURADOS", "CONTR. SEGURADOS", "SEGURADOS"]

/-- Translation of `_classificar_categoria`
(`src/parsers/receita_federal.py:217-236`). -/
def classificarCategoria (lu : List Char) (codigo : String) : Option String :=
  if TERMOS_SEGURO.any (fun t => hasSub t lu) || CODIGOS_CP_SEGURO.contains codigo then
    some "seguro"
  else if hasSub "CP-PATRONAL" lu || hasSub "CP PATRONAL" lu ||
      CODIGOS_CP_PATRONAL.contains codigo then
    some "patronal"
  else if hasSub "CP-TERCEIROS" lu || hasSub "CP TERCEIROS" lu ||
      CODIGOS_CP_TERCEIROS.contains codigo then
    some "terceiros"
  else none

/-- Translation of `_classificar_tributo`
(`src/parsers/receita_federal.py:239-260`); the PIS and COFINS code tests are
substring tests (`c in codigo`) in the source. -/
def classificarTributo (lu : List Char) (codigo : String) : Option String :=
  if CODIGOS_TRIB_IRRF.contains codigo || hasSub "IRRF" lu then some "irrf"
  else if hasSub "IRLS" lu then some "irls"
  else if CODIGOS_TRIB_PIS.any (fun c => hasSubL c.data codigo.data) || hasSub "PIS" lu then
    some "pis"
  else if CODIGOS_TRIB_COFINS.any (fun c => hasSubL c.data codigo.data) ||
      hasSub "COFINS" lu then
    some "cofins"
  else none

/-- The intermediate debt-candidate dictionary built by
`_processar_linha_tabela` (`src/parsers/receita_federal.py:310-319`). -/
structure DebitoCand where
  codigo : String
  competencia : Option String
  valor : Option ℚ
  categoria : Option String
  tributo : Option String
  descricao : Option String
  linha_completa_upper : String
  tem_devedor : Bool
  deriving DecidableEq

/-- `" ".join(_limpa(cell) for cell in linha if cell)`
(`src/parsers/receita_federal.py:271`). -/
def linhaCompleta (linha : List String) : List Char :=
  List.intercalate [' '] ((linha.filter (fun c => c ≠ "")).map (fun c => limpaL c.data))

/-- Translation of `_processar_linha_tabela`
(`src/parsers/receita_federal.py:263-321`).  The caller always passes a
non-empty (hence truthy) column-index dictionary, so the
`_extrair_valor_da_linha` branch is always the one taken. -/
def processarLinhaTabela (linha : List String) (idx : ColIdx) : Option DebitoCand :=
  if linha.length < 2 then none
  else
    match findCodigo (linhaCompleta linha) with
    | none => none
    | some codigo =>
      let lu := upperL (linhaCompleta linha)
      let competencia := (findMMYYYY (linhaCompleta linha)).bind normalizarCompetencia
      let valor := extrairValorDaLinha linha idx
      let tem_devedor := hasSub "DEVEDOR" lu || hasSub "ATIVA" lu
      let categoria := classificarCategoria lu codigo
      let tributo := classificarTributo lu codigo
      let descricao :=
        if linhaCompleta linha = [] then none
        else some (String.mk ((linhaCompleta linha).take 100))
      if valor.isSome || tem_devedor || categoria.isSome || tributo.isSome then
        some { codigo := codigo, competencia := competencia, valor := valor,
               categoria := categoria, tributo := tributo, descricao := descricao,
               linha_completa_upper := String.mk lu, tem_devedor := tem_devedor }
      else none

/-- Table pass of `processar_receita`
(`src/parsers/receita_federal.py:378-396`): header-based column
identification, then every row after the header. -/
def processarTabelas (tabelas : List (List (List String))) : List DebitoCand :=
  tabelas.foldl
    (fun acc tabela =>
      if tabela = [] then acc
      else
        acc ++ ((tabela.drop 1).filterMap
          (fun linha => processarLinhaTabela linha (identificarColunas (tabela.headD [])))))
    []

/-! ## `src/parsers/receita_federal.py` : raw-text fallback scan -/

/-- Lazy `.*?DEVEDOR` (IGNORECASE): scan forward without crossing a newline
(the default `.` does not match `\n`) for the literal, returning the
remainder after it. -/
def scanDevedor : List Char → Option (List Char)
  | [] => none
  | c :: t =>
    match matchCI "devedor".data (c :: t) with
    | some r => some r
    | none => if c == '\n' then none else scanDevedor t

/-- Lazy `.*?([\d\.]+,\d{2}).*?DEVEDOR`: scan for the first monetary token
whose continuation also finds `DEVEDOR`, newline-bounded. -/
def scanValorDevedor : List Char → Option (String × List Char)
  | [] => none
  | c :: t =>
    match moneyP1At (c :: t) with
    | some (g3, r) =>
      match scanDevedor r with
      | some rest => some (g3, rest)
      | none => if c == '\n' then none else scanValorDevedor t
    | none => if c == '\n' then none else scanValorDevedor t

/-- The part of the fallback pattern after the code group:
`.*?(\d{2}/\d{4})?.*?([\d\.]+,\d{2}).*?DEVEDOR`.  With a lazy gap before the
optional competency group, the group can only participate when it matches
immediately after the code; otherwise the second lazy gap absorbs the text.
If neither path succeeds from the first position, no later gap extension can
succeed (the scan sets are subsets), so the whole attempt fails. -/
def tryAfterCodigo (l : List Char) : Option (Option String × String × List Char) :=
  match mmyyyyAt l with
  | some (g2, r2) =>
    match scanValorDevedor r2 with
    | some (g3, rest) => some (some g2, g3, rest)
    | none =>
      match scanValorDevedor l with
      | some (g3, rest) => some (none, g3, rest)
      | none => none
  | none =>
    match scanValorDevedor l with
    | some (g3, rest) => some (none, g3, rest)
    | none => none

/-- The `re.finditer` loop over the raw-text fallback pattern
(`src/parsers/receita_federal.py:399-419`), fuelled by the text length. -/
def textoFallbackGo : ℕ → List Char → List DebitoCand
  | 0, _ => []
  | _, [] => []
  | fuel + 1, c :: t =>
    match codigoAt (c :: t) with
    | some (g1, r1) =>
      match tryAfterCodigo r1 with
      | some (g2, g3, rest) =>
        { codigo := g1,
          competencia := g2.bind normalizarCompetencia,
          valor := some (converter_valor_br_para_float g3),
          categoria := classificarCategoria (upperL ((c :: t).take ((c :: t).length - rest.length))) g1,
          tributo := classificarTributo (upperL ((c :: t).take ((c :: t).length - rest.length))) g1,
          descricao := some (String.mk (((c :: t).take ((c :: t).length - rest.length)).take 100)),
          linha_completa_upper := String.mk (upperL ((c :: t).take ((c :: t).length - rest.length))),
          tem_devedor := true } :: textoFallbackGo fuel rest
      | none => textoFallbackGo fuel t
    | none => textoFallbackGo fuel t

def textoFallback (texto : List Char) : List DebitoCand :=
  textoFallbackGo texto.length texto

/-! ## `src/parsers/receita_federal.py` : result schema -/

structure ItemDetalhe where
  competencia : Option String
  codigo : String
  descricao : Option String
  categoria : String
  valor : Option ℚ
  fonte : String
  deriving DecidableEq

structure Contribuicoes where
  seguro_total : ℚ
  patronal_total : ℚ
  terceiros_total : ℚ
  total_geral : ℚ
  detalhes : List ItemDetalhe
  deriving DecidableEq

structure SimplesDebitoRF where
  competencia : Option String
  codigo : String
  descricao : Option String
  valor : Option ℚ
  deriving DecidableEq

structure ParcelamentoSN where
  tem_parcelamento : Bool
  tipo : Option String
  parcelas_atraso : Option ℕ
  deriving DecidableEq

structure SimplesNacionalRF where
  tem_pendencias : Bool
  debitos : List SimplesDebitoRF
  parcelamento : ParcelamentoSN
  deriving DecidableEq

structure ItemTributo where
  competencia : Option String
  codigo : String
  descricao : Option String
  valor : Option ℚ
  situacao : Option String
  deriving DecidableEq

structure DebitosGerais where
  irrf : List ItemTributo
  irls : List ItemTributo
  pis : List ItemTributo
  cofins : List ItemTributo
  deriving DecidableEq

structure PgfnInscricao where
  inscricao : String
  situacao : String
  deriving DecidableEq

structure PgfnRF where
  previdenciario : List PgfnInscricao
  simples_nacional : List PgfnInscricao
  geral : List PgfnInscricao
  deriving DecidableEq

/-- One SISPAR installment record
(`src/parsers/receita_federal.py:644-659`); the three amount fields and the
competency list are reserved for manual entry. -/
structure SisparParcelamento where
  conta : Option String
  tipo : Option String
  modalidade : Option String
  regime : Option String
  limite_maximo_meses : Option ℕ
  negociado_no_sispar : Option Bool
  exigibilidade_suspensa : Option Bool
  quantidade_parcelas : Option String
  valor_total_parcelado : Option String
  valor_parcela : Option String
  competencias : List String
  necessita_consulta_manual_pgfn : Bool
  observacao : String
  conferido_pelo_usuario : Bool
  deriving DecidableEq, Inhabited

structure SisparRF where
  tem_sispar : Bool
  parcelamentos : List SisparParcelamento
  deriving DecidableEq

structure PgfnPrevidencia where
  existe : Bool
  receitas : List String
  origem_secao : Option String
  informacoes_adicionais_usuario : String
  deriving DecidableEq

structure PrevidenciaRF where
  existe : Bool
  total_previdencia : Option String
  fonte : String
  deriving DecidableEq

structure ReceitaResultado where
  contribuicoes : Contribuicoes
  simples_nacional : SimplesNacionalRF
  debitos_gerais : DebitosGerais
  pgfn : PgfnRF
  sispar : SisparRF
  pgfn_previdencia : PgfnPrevidencia
  previdencia : PrevidenciaRF
  deriving DecidableEq

/-! ## `src/parsers/receita_federal.py` : per-debt accumulation -/

/-- One iteration of the debt-processing loop
(`src/parsers/receita_federal.py:422-472`): contribution categorization with
running totals (a `None`/zero amount is falsy and not added), tax-type
routing, and the Simples Nacional detection. -/
def processaDebito (r : ReceitaResultado) (d : DebitoCand) : ReceitaResultado :=
  let r1 :=
    match d.categoria with
    | some cat =>
      let c1 :=
        { r.contribuicoes with detalhes := r.contribuicoes.detalhes ++
            [{ competencia := d.competencia, codigo := d.codigo, descricao := d.descricao,
               categoria := cat, valor := d.valor, fonte := "receita_federal" }] }
      let c2 :=
        match d.valor with
        | some v =>
          if cat = "seguro" ∧ v ≠ 0 then { c1 with seguro_total := c1.seguro_total + v }
          else if cat = "patronal" ∧ v ≠ 0 then
            { c1 with patronal_total := c1.patronal_total + v }
          else if cat = "terceiros" ∧ v ≠ 0 then
            { c1 with terceiros_total := c1.terceiros_total + v }
          else c1
        | none => c1
      { r with contribuicoes := c2 }
    | none => r
  let r2 :=
    match d.tributo with
    | some trib =>
      let item : ItemTributo :=
        { competencia := d.competencia, codigo := d.codigo, descricao := d.descricao,
          valor := d.valor, situacao := if d.tem_devedor then some "DEVEDOR" else none }
      if trib = "irrf" then
        { r1 with debitos_gerais := { r1.debitos_gerais with irrf := r1.debitos_gerais.irrf ++ [item] } }
      else if trib = "irls" then
        { r1 with debitos_gerais := { r1.debitos_gerais with irls := r1.debitos_gerais.irls ++ [item] } }
      else if trib = "pis" then
        { r1 with debitos_gerais := { r1.debitos_gerais with pis := r1.debitos_gerais.pis ++ [item] } }
      else
        { r1 with debitos_gerais := { r1.debitos_gerais with cofins := r1.debitos_gerais.cofins ++ [item] } }
    | none => r1
  if hasSub "SIMPLES NAC" d.linha_completa_upper.data ∧ d.tem_devedor then
    { r2 with simples_nacional :=
        { r2.simples_nacional with
          tem_pendencias := true,
          debitos := r2.simples_nacional.debitos ++
            [{ competencia := d.competencia, codigo := d.codigo, descricao := d.descricao,
               valor := d.valor }] } }
  else r2

/-! ## `src/parsers/receita_federal.py` : text-level extraction steps -/

def TERMOS_PARCELAMENTO : List String :=
  ["parcsn", "parcmei", "simples nacional - em parcelamento",
   "pendência - parcelamento", "pendencia - parcelamento"]

/-- Greedy digit run after a lazy newline-bounded gap
(`.*?(\d+)` without DOTALL). -/
def scanFirstDigits : List Char → Option ℕ
  | [] => none
  | c :: t =>
    if pyIsDigit c then some (natFromDigits (c :: t.takeWhile pyIsDigit))
    else if c == '\n' then none
    else scanFirstDigits t

/-- Matcher for `parcelas\s+em\s+atraso` (IGNORECASE) at the head of `l`. -/
def parcelasAtrasoAt (l : List Char) : Option (List Char) :=
  match matchCI "parcelas".data l with
  | some r1 =>
    match matchWS1 r1 with
    | some r2 =>
      match matchCI "em".data r2 with
      | some r3 =>
        match matchWS1 r3 with
        | some r4 => matchCI "atraso".data r4
        | none => none
      | none => none
    | none => none
  | none => none

/-- `re.search(r'parcelas\s+em\s+atraso.*?(\d+)', texto, re.IGNORECASE)`
(`src/parsers/receita_federal.py:490`). -/
def findParcelasAtraso (texto : List Char) : Option ℕ :=
  match findPatGo parcelasAtrasoAt texto with
  | some (_, rest) => scanFirstDigits rest
  | none => none

/-- The Simples Nacional installment-plan step
(`src/parsers/receita_federal.py:482-498`). -/
def parcelamentoStep (texto : List Char) : ParcelamentoSN :=
  if TERMOS_PARCELAMENTO.any (fun t => hasSub t (lowerL texto)) then
    { tem_parcelamento := true,
      parcelas_atraso := findParcelasAtraso texto,
      tipo :=
        if hasSub "parcsn" (lowerL texto) then some "PARCSN"
        else if hasSub "parcmei" (lowerL texto) then some "PARCMEI"
        else none }
  else { tem_parcelamento := false, tipo := none, parcelas_atraso := none }

/-- The PGFN inscription-number pattern `\d{2}\.\d\.\d{2}\.\d{6}-\d{2}`
attempted at the head of `l`. -/
def inscricaoAt (l : List Char) : Option (String × List Char) :=
  match takeDigits 2 l with
  | some (a, r1) =>
    match r1 with
    | '.' :: r2 =>
      match takeDigits 1 r2 with
      | some (b, r3) =>
        match r3 with
        | '.' :: r4 =>
          match takeDigits 2 r4 with
          | some (c, r5) =>
            match r5 with
            | '.' :: r6 =>
              match takeDigits 6 r6 with
              | some (d, r7) =>
                match r7 with
                | '-' :: r8 =>
                  match takeDigits 2 r8 with
                  | some (e, r9) =>
                    some (String.mk (a ++ '.' :: b ++ '.' :: c ++ '.' :: d ++ '-' :: e), r9)
                  | none => none
                | _ => none
              | none => none
            | _ => none
          | none => none
        | _ => none
      | none => none
    | _ => none
  | none => none

def SITUACOES_PGFN : List String :=
  ["ATIVA AJUIZADA", "ATIVA EM COBRANCA", "ATIVA A SER AJUIZADA", "ATIVA A SER COBRADA"]

/-- The PGFN status alternation attempted at the head of `l` (alternatives
in the source's order, IGNORECASE; the capture is the text as it appears). -/
def situacaoPgfnAt (l : List Char) : Option (String × List Char) :=
  match SITUACOES_PGFN.filter (fun kw => (matchCI kw.data l).isSome) with
  | kw :: _ => some (String.mk (l.take kw.data.length), l.drop kw.data.length)
  | [] => none

/-- Lazy newline-bounded scan for a PGFN status phrase. -/
def scanSituacaoPgfn : List Char → Option (String × List Char)
  | [] => none
  | c :: t =>
    match situacaoPgfnAt (c :: t) with
    | some r => some r
    | none => if c == '\n' then none else scanSituacaoPgfn t

/-- The `re.finditer` loop over PGFN inscriptions with their ±100-character
context window (`src/parsers/receita_federal.py:500-526`), accumulating into
the two classified lists. -/
def pgfnGo (texto : List Char) : ℕ → ℕ → PgfnRF → PgfnRF
  | 0, _, acc => acc
  | fuel + 1, pos, acc =>
    if texto.length ≤ pos then acc
    else
      match inscricaoAt (texto.drop pos) with
      | some (g1, r1) =>
        match scanSituacaoPgfn r1 with
        | some (g2, rest) =>
          pgfnGo texto fuel (texto.length - rest.length)
            (if hasSub "1507" ((texto.drop (pos - 100)).take
                  (min texto.length ((texto.length - rest.length) + 100) - (pos - 100))) ||
                hasSub "simples" (lowerL ((texto.drop (pos - 100)).take
                  (min texto.length ((texto.length - rest.length) + 100) - (pos - 100)))) then
              { acc with simples_nacional := acc.simples_nacional ++
                  [{ inscricao := g1, situacao := g2 }] }
            else
              { acc with previdenciario := acc.previdenciario ++
                  [{ inscricao := g1, situacao := g2 }] })
        | none => pgfnGo texto fuel (pos + 1) acc
      | none => pgfnGo texto fuel (pos + 1) acc

def pgfnStep (texto : List Char) : PgfnRF :=
  pgfnGo texto (texto.length + 1) 0 { previdenciario := [], simples_nacional := [], geral := [] }

/-! ## `src/parsers/receita_federal.py` : SISPAR block -/

/-- `Pend[êe]ncia` prefix (shared by the SISPAR and SIDA anchors). -/
def pendenciaAt (l : List Char) : Option (List Char) :=
  match matchCI "pend".data l with
  | some (c :: r2) =>
    if pyLower c == 'ê' || pyLower c == 'e' then matchCI "ncia".data r2 else none
  | _ => none

/-- `[-–]` (hyphen or en dash). -/
def dashAt (l : List Char) : Option (List Char) :=
  match l with
  | c :: t => if c == '-' || c == '–' then some t else none
  | [] => none

/-- `\s*\(?\s*SISPAR\s*\)?` tail shared by the SISPAR anchors. -/
def sisparTailAt (l : List Char) : Option (List Char) :=
  match matchCI "sispar".data (dropWS (optChar '(' (dropWS l))) with
  | some r => some (optChar ')' (dropWS r))
  | none => none

/-- Anchor 1: `Pend[êe]ncia\s*[-–]\s*Parcelamento\s*\(?\s*SISPAR\s*\)?`. -/
def sisparP1At (l : List Char) : Option (List Char) :=
  match pendenciaAt l with
  | some r1 =>
    match dashAt (dropWS r1) with
    | some r2 =>
      match matchCI "parcelamento".data (dropWS r2) with
      | some r3 => sisparTailAt r3
      | none => none
    | none => none
  | none => none

/-- Anchor 2: `Parcelamento\s*\(?\s*SISPAR\s*\)?`. -/
def sisparP2At (l : List Char) : Option (List Char) :=
  match matchCI "parcelamento".data l with
  | some r1 => sisparTailAt r1
  | none => none

/-- Anchor 3: `Parcelamento\s+com\s+Exigibilidade\s+Suspensa\s*\(?\s*SISPAR\s*\)?`. -/
def sisparP3At (l : List Char) : Option (List Char) :=
  match matchCI "parcelamento".data l with
  | some r1 =>
    match matchWS1 r1 with
    | some r2 =>
      match matchCI "com".data r2 with
      | some r3 =>
        match matchWS1 r3 with
        | some r4 =>
          match matchCI "exigibilidade".data r4 with
          | some r5 =>
            match matchWS1 r5 with
            | some r6 =>
              match matchCI "suspensa".data r6 with
              | some r7 => sisparTailAt r7
              | none => none
            | none => none
          | none => none
        | none => none
      | none => none
    | none => none
  | none => none

/-- Anchor 4: `NEGOCIADA\s+NO\s+SISPAR`. -/
def sisparP4At (l : List Char) : Option (List Char) :=
  match matchCI "negociada".data l with
  | some r1 =>
    match matchWS1 r1 with
    | some r2 =>
      match matchCI "no".data r2 with
      | some r3 =>
        match matchWS1 r3 with
        | some r4 => matchCI "sispar".data r4
        | none => none
      | none => none
    | none => none
  | none => none

/-- SISPAR block detection (`src/parsers/receita_federal.py:533-549`): the
four anchors are searched in order over the whole text; the block runs from
the match start to 2000 characters past the match end. -/
def findSisparBloco (texto : List Char) : Option (List Char) :=
  match findPatGo sisparP1At texto with
  | some (s, rest) => some (s.take ((s.length - rest.length) + 2000))
  | none =>
    match findPatGo sisparP2At texto with
    | some (s, rest) => some (s.take ((s.length - rest.length) + 2000))
    | none =>
      match findPatGo sisparP3At texto with
      | some (s, rest) => some (s.take ((s.length - rest.length) + 2000))
      | none =>
        match findPatGo sisparP4At texto with
        | some (s, rest) => some (s.take ((s.length - rest.length) + 2000))
        | none => none

def isAsciiLetter (c : Char) : Bool := ('A' ≤ c && c ≤ 'Z') || ('a' ≤ c && c ≤ 'z')

def isTipoChar (c : Char) : Bool := isAsciiLetter c || pyIsSpace c || c == '-'

/-- The optional plan-type group `([A-Z][A-Z\s\-]+)?` (IGNORECASE) at the
head of `l`. -/
def tipoGroupAt (l : List Char) : Option (List Char) :=
  match l with
  | x :: r =>
    if isAsciiLetter x then
      match r.takeWhile isTipoChar with
      | [] => none
      | run => some (x :: run)
    else none
  | [] => none

/-- `Conta\s+(?P<conta>\d{6,12})\s*(?P<tipo>[A-Z][A-Z\s\-]+)?` (IGNORECASE)
attempted at the head of `l` (`src/parsers/receita_federal.py:562-566`). -/
def contaAt (l : List Char) : Option (String × Option String) :=
  match matchCI "conta".data l with
  | some r1 =>
    match matchWS1 r1 with
    | some r2 =>
      let run := r2.takeWhile pyIsDigit
      if run.length < 6 then none
      else
        some (String.mk (run.take 12),
          (tipoGroupAt (dropWS (r2.drop (run.take 12).length))).map
            (fun ts => String.mk (limpaL ts)))
    | none => none
  | none => none

def findConta : List Char → Option (String × Option String)
  | [] => none
  | c :: t =>
    match contaAt (c :: t) with
    | some r => some r
    | none => findConta t

/-- The per-line fallback `^\s*(?P<conta>\d{6,12})\s+(?P<tipo>[A-Z][A-Z\s\-]+)`
(`src/parsers/receita_federal.py:580-591`): first matching line wins. -/
def contaLinhaAt (linha : List Char) : Option (String × Option String) :=
  let r0 := dropWS linha
  let run := r0.takeWhile pyIsDigit
  if run.length < 6 ∨ 12 < run.length then none
  else
    match matchWS1 (r0.drop run.length) with
    | some r2 =>
      match tipoGroupAt r2 with
      | some ts => some (String.mk run, some (String.mk (limpaL ts)))
      | none => none
    | none => none

def findContaLinhas : List (List Char) → Option (String × Option String)
  | [] => none
  | linha :: rest =>
    match contaLinhaAt linha with
    | some r => some r
    | none => findContaLinhas rest

/-- `Modalidade[:\s]+([^\n]+)` (IGNORECASE) attempted at the head of `l`
(`src/parsers/receita_federal.py:595-601`), including the end-of-text
backtracking of the greedy `[:\s]+` run. -/
def modalidadeAt (l : List Char) : Option (List Char) :=
  match matchCI "modalidade".data l with
  | some r1 =>
    let cls := fun c => c == ':' || pyIsSpace c
    match r1.takeWhile cls with
    | [] => none
    | run =>
      match r1.drop run.length with
      | [] =>
        match run.reverse.dropWhile (fun c => c == '\n') with
        | x :: _ => some [x]
        | [] => none
      | after => some (after.takeWhile (fun c => c != '\n'))
  | none => none

def findModalidade : List Char → Option (List Char)
  | [] => none
  | c :: t =>
    match modalidadeAt (c :: t) with
    | some r => some r
    | none => findModalidade t

/-- Regime classification by keyword (`src/parsers/receita_federal.py:604-611`);
the second branch's literal `'PREVIDENCI[ÁA]RIA'` substring test is kept as
written in the source. -/
def regimeOf (bu : List Char) : Option String :=
  if hasSub "SIMPLES" bu && hasSub "NACIONAL" bu then some "SIMPLES NACIONAL"
  else if hasSub "PREVIDENCIAR" bu || hasSub "PREVIDENCI[ÁA]RIA" bu then some "PREVIDENCIARIO"
  else if hasSub "NAO PREVIDENCIAR" bu || hasSub "NÃO PREVIDENCIAR" bu ||
      hasSub "NÃO PREVIDENCIÁRIA" bu then
    some "NAO PREVIDENCIARIO"
  else none

/-- `AT[EÉ]\s+(\d{1,3})\s+MESES` (IGNORECASE) attempted at the head of `l`. -/
def limiteAt (l : List Char) : Option ℕ :=
  match matchCI "at".data l with
  | some (c :: r1) =>
    if pyLower c == 'e' || pyLower c == 'é' then
      match matchWS1 r1 with
      | some r2 =>
        let run := r2.takeWhile pyIsDigit
        if run.length < 1 ∨ 3 < run.length then none
        else
          match matchWS1 (r2.drop run.length) with
          | some r3 =>
            match matchCI "meses".data r3 with
            | some _ => some (natFromDigits run)
            | none => none
          | none => none
      | none => none
    else none
  | _ => none

def findLimite : List Char → Option ℕ
  | [] => none
  | c :: t =>
    match limiteAt (c :: t) with
    | some r => some r
    | none => findLimite t

/-- `EXIGIBILIDADE\s+SUSPENSA` at the head of `l`. -/
def exigSuspensaAt (l : List Char) : Option (List Char) :=
  match matchCI "exigibilidade".data l with
  | some r1 =>
    match matchWS1 r1 with
    | some r2 => matchCI "suspensa".data r2
    | none => none
  | none => none

/-- `EXIGIBILIDADE\s+(?:NÃO|NAO)\s+SUSPENSA` at the head of `l`. -/
def exigNaoSuspensaAt (l : List Char) : Option (List Char) :=
  match matchCI "exigibilidade".data l with
  | some r1 =>
    match matchWS1 r1 with
    | some r2 =>
      match (match matchCI "não".data r2 with
             | some r => some r
             | none => matchCI "nao".data r2) with
      | some r3 =>
        match matchWS1 r3 with
        | some r4 => matchCI "suspensa".data r4
        | none => none
      | none => none
    | none => none
  | none => none

/-- `NEGOCIAD[OA]` at the head of `l`. -/
def negociadAt (l : List Char) : Option (List Char) :=
  match matchCI "negociad".data l with
  | some (c :: r) =>
    if pyLower c == 'o' || pyLower c == 'a' then some r else none
  | _ => none

/-- `(?:NEGOCIADO|NEGOCIADA).*?SISPAR|SISPAR.*?(?:NEGOCIADO|NEGOCIADA)` as a
pure existence test (the source only checks the search's truthiness). -/
def negociadoNoSispar (nrm : List Char) : Bool :=
  (match findPatGo negociadAt nrm with
   | some (_, rest) => hasSub "sispar" (lowerL rest)
   | none => false) ||
  (match findPatGo (fun l => matchCI "sispar".data l) nrm with
   | some (_, rest) => (findPatGo negociadAt rest).isSome
   | none => false)

def SISPAR_OBS : String :=
  "O relatório da Receita Federal não informa quantidade de parcelas, valores ou competências; é necessária consulta manual ao PGFN/SISPAR."

/-- Field extraction inside a detected SISPAR block
(`src/parsers/receita_federal.py:552-661`).  The amount fields, installment
count and competency list are never inferred; they are fixed to empty with
the manual-review flag and observation. -/
def buildParcelamento (bloco : List Char) : SisparParcelamento :=
  let contaTipo :=
    match findConta bloco with
    | some r => some r
    | none => findContaLinhas (splitOnNL bloco)
  { conta := contaTipo.map (fun p => p.1),
    tipo := (contaTipo.map (fun p => p.2)).getD none,
    modalidade := (findModalidade bloco).map (fun g => String.mk (limpaL g)),
    regime := regimeOf (upperL bloco),
    limite_maximo_meses :=
      (findLimite (squashWsAll bloco)).bind
        (fun v => if 1 ≤ v ∧ v ≤ 240 then some v else none),
    negociado_no_sispar :=
      if negociadoNoSispar (squashWsAll bloco) then some true else none,
    exigibilidade_suspensa :=
      if (findPatGo exigSuspensaAt (squashWsAll bloco)).isSome then some true
      else if (findPatGo exigNaoSuspensaAt (squashWsAll bloco)).isSome then some false
      else none,
    quantidade_parcelas := none,
    valor_total_parcelado := none,
    valor_parcela := none,
    competencias := [],
    necessita_consulta_manual_pgfn := true,
    observacao := SISPAR_OBS,
    conferido_pelo_usuario := false }

def sisparStep (texto : List Char) : SisparRF :=
  match findSisparBloco texto with
  | some bloco => { tem_sispar := true, parcelamentos := [buildParcelamento bloco] }
  | none => { tem_sispar := false, parcelamentos := [] }

/-! ## `src/parsers/receita_federal.py` : SIDA block and headline total -/

/-- `Inscri[çc][ãa]o` prefix. -/
def inscricaoKwAt (l : List Char) : Option (List Char) :=
  match matchCI "inscri".data l with
  | some (c1 :: c2 :: r) =>
    if (pyLower c1 == 'ç' || pyLower c1 == 'c') && (pyLower c2 == 'ã' || pyLower c2 == 'a') then
      matchCI "o".data (c2 :: r).tail
    else none
  | _ => none

/-- `\s*\(?\s*SIDA\s*\)?` tail of the SIDA anchors. -/
def sidaTailAt (l : List Char) : Option (List Char) :=
  match matchCI "sida".data (dropWS (optChar '(' (dropWS l))) with
  | some r => some (optChar ')' (dropWS r))
  | none => none

/-- Anchor 1: `Pend[êe]ncia\s*[-–]\s*Inscri[çc][ãa]o\s*\(?\s*SIDA\s*\)?`. -/
def sidaP1At (l : List Char) : Option (List Char) :=
  match pendenciaAt l with
  | some r1 =>
    match dashAt (dropWS r1) with
    | some r2 =>
      match inscricaoKwAt (dropWS r2) with
      | some r3 => sidaTailAt r3
      | none => none
    | none => none
  | none => none

/-- Anchor 2: `Inscri[çc][ãa]o\s+com\s+Exigibilidade\s+Suspensa\s*\(?\s*SIDA\s*\)?`. -/
def sidaP2At (l : List Char) : Option (List Char) :=
  match inscricaoKwAt l with
  | some r1 =>
    match matchWS1 r1 with
    | some r2 =>
      match matchCI "com".data r2 with
      | some r3 =>
        match matchWS1 r3 with
        | some r4 =>
          match matchCI "exigibilidade".data r4 with
          | some r5 =>
            match matchWS1 r5 with
            | some r6 =>
              match matchCI "suspensa".data r6 with
              | some r7 => sidaTailAt r7
              | none => none
            | none => none
          | none => none
        | none => none
      | none => none
    | none => none
  | none => none

/-- Anchor 3: `Inscri[çc][ãa]o\s*\(?\s*SIDA\s*\)?`. -/
def sidaP3At (l : List Char) : Option (List Char) :=
  match inscricaoKwAt l with
  | some r1 => sidaTailAt r1
  | none => none

def linhaTemSida (linha : List Char) : Bool :=
  (findPatGo sidaP1At linha).isSome || (findPatGo sidaP2At linha).isSome ||
    (findPatGo sidaP3At linha).isSome

/-- The SIDA section search of `src/parsers/receita_federal.py:663-684`:
first line matching one of the anchors; the block is that line and up to the
next 49 lines. -/
def findSidaBlocoGo : List (List Char) → Option (List Char × List (List Char))
  | [] => none
  | linha :: rest =>
    if linhaTemSida linha then some (linha, (linha :: rest).take 50)
    else findSidaBlocoGo rest

/-- Word character for the `\b` boundary (ASCII word characters plus the
accented letters of the modeled repertoire). -/
def isWordChar (c : Char) : Bool :=
  pyIsDigit c || isAsciiLetter c || c == '_' || (pyLower c != c) || (pyUpper c != c)

/-- `\b(\d{4}-CLT)\b` (IGNORECASE) attempted at the head of `l`; the
leading boundary is checked by the caller. -/
def cltAt (l : List Char) : Option (String × List Char) :=
  match takeDigits 4 l with
  | some (ds, r1) =>
    match r1 with
    | '-' :: r2 =>
      match matchCI "clt".data r2 with
      | some r3 =>
        match r3 with
        | c :: _ => if isWordChar c then none else some (String.mk (upperL (ds ++ '-' :: "CLT".data)), r3)
        | [] => some (String.mk (upperL (ds ++ '-' :: "CLT".data)), r3)
      | none => none
    | _ => none
  | none => none

def cltGo : ℕ → Option Char → List Char → List String
  | 0, _, _ => []
  | _, _, [] => []
  | fuel + 1, prev, c :: t =>
    if (match prev with | some p => isWordChar p | none => false) then
      cltGo fuel (some c) t
    else
      match cltAt (c :: t) with
      | some (tok, rest) =>
        tok :: cltGo fuel (some 'T') rest
      | none => cltGo fuel (some c) t

/-- De-duplicated, upper-cased SIDA revenue codes
(`src/parsers/receita_federal.py:686-694`). -/
def cltReceitas (bloco : List Char) : List String :=
  (cltGo bloco.length none bloco).foldl insertUnique []

def sidaStep (texto : List Char) : PgfnPrevidencia :=
  match findSidaBlocoGo (splitOnNL texto) with
  | some (linha, linhas) =>
    match cltReceitas (List.intercalate ['\n'] linhas) with
    | [] =>
      { existe := false, receitas := [], origem_secao := none,
        informacoes_adicionais_usuario := "" }
    | rs =>
      { existe := true, receitas := rs, origem_secao := some (String.mk (pyStrip linha)),
        informacoes_adicionais_usuario := "" }
  | none =>
    { existe := false, receitas := [], origem_secao := none,
      informacoes_adicionais_usuario := "" }

/-- `TOTAL\s+(?:DE\s+)?CONTRIBUI[ÇC][ÕO]ES` attempted at the head of `l`
(applied to the upper-cased line, `src/parsers/receita_federal.py:708`). -/
def totalLabelAt (l : List Char) : Option (List Char) :=
  match matchCI "total".data l with
  | some r1 =>
    match matchWS1 r1 with
    | some r2 =>
      let after :=
        match matchCI "de".data r2 with
        | some r3 =>
          match matchWS1 r3 with
          | some r4 => r4
          | none => r2
        | none => r2
      match matchCI "contribui".data after with
      | some (c1 :: c2 :: r5) =>
        if (pyLower c1 == 'ç' || pyLower c1 == 'c') && (pyLower c2 == 'õ' || pyLower c2 == 'o') then
          matchCI "es".data r5
        else none
      | _ => none
    | none => none
  | none => none

/-- `R\$\s*([\d\.]+,\d{2})|([\d\.]+,\d{2})` (case-sensitive) leftmost search
over a line, returning the captured amount text. -/
def findMoneyRS : List Char → Option String
  | [] => none
  | c :: t =>
    match (match (c :: t) with
           | 'R' :: '$' :: r1 => moneyP1At (dropWS r1)
           | _ => none) with
    | some (g, _) => some g
    | none =>
      match moneyP1At (c :: t) with
      | some (g, _) => some g
      | none => findMoneyRS t

/-- Value handling for one candidate line of the headline-total step
(`src/parsers/receita_federal.py:710-728`). -/
def totalValorDaLinha (linha : List Char) : Option String :=
  match findMoneyRS linha with
  | some g =>
    if pyStrip g.data = [] ∨ pyStrip g.data = ['-'] then none
    else
      if converter_valor_br_para_float g > 0 then
        some (formatar_moeda_br (converter_valor_br_para_float g))
      else none
  | none => none

/-- The headline "TOTAL DE CONTRIBUIÇÕES" scan
(`src/parsers/receita_federal.py:701-734`): first labeled line; the amount
from that line, or from the following line when the labeled line holds
none. -/
def totalStepGo : List (List Char) → Option String
  | [] => none
  | linha :: rest =>
    if (findPatGo totalLabelAt (upperL linha)).isSome then
      match findMoneyRS linha with
      | some _ => totalValorDaLinha linha
      | none =>
        match rest with
        | prox :: _ => totalValorDaLinha prox
        | [] => none
    else totalStepGo rest

def totalStep (texto : List Char) : Option String := totalStepGo (splitOnNL texto)

/-! ## `src/parsers/receita_federal.py` : `processar_receita` -/

def receitaVazia : ReceitaResultado :=
  { contribuicoes :=
      { seguro_total := 0, patronal_total := 0, terceiros_total := 0, total_geral := 0,
        detalhes := [] },
    simples_nacional :=
      { tem_pendencias := false, debitos := [],
        parcelamento := { tem_parcelamento := false, tipo := none, parcelas_atraso := none } },
    debitos_gerais := { irrf := [], irls := [], pis := [], cofins := [] },
    pgfn := { previdenciario := [], simples_nacional := [], geral := [] },
    sispar := { tem_sispar := false, parcelamentos := [] },
    pgfn_previdencia :=
      { existe := false, receitas := [], origem_secao := none,
        informacoes_adicionais_usuario := "" },
    previdencia := { existe := false, total_previdencia := none, fonte := "Receita Federal" } }

/-- Translation of `processar_receita`
(`src/parsers/receita_federal.py:328-736`): table pass with raw-text
fallback, per-debt accumulation, grand total, installment plan, PGFN
inscriptions, SISPAR block, SIDA block and headline total, in source
order. -/
def processar_receita (texto : String) (tabelas : List (List (List String))) :
    ReceitaResultado :=
  let todos :=
    if processarTabelas tabelas = [] then textoFallback texto.data
    else processarTabelas tabelas
  let r1 := todos.foldl processaDebito receitaVazia
  let r2 :=
    { r1 with contribuicoes :=
        { r1.contribuicoes with total_geral :=
            r1.contribuicoes.seguro_total + r1.contribuicoes.patronal_total +
              r1.contribuicoes.terceiros_total } }
  let r3 :=
    { r2 with simples_nacional :=
        { r2.simples_nacional with parcelamento := parcelamentoStep texto.data } }
  let r4 := { r3 with pgfn := pgfnStep texto.data }
  let r5 := { r4 with sispar := sisparStep texto.data }
  let r6 := { r5 with pgfn_previdencia := sidaStep texto.data }
  match totalStep texto.data with
  | some t =>
    { r6 with previdencia :=
        { existe := true, total_previdencia := some t, fonte := "Receita Federal" } }
  | none => r6

/-! ## `src/utils.py` : `normalize_text` -/

def emitNL (n : ℕ) : List Char := if 3 ≤ n then ['\n', '\n'] else List.replicate n '\n'

/-- `re.sub(r'\n{3,}', '\n\n', s)` (`src/utils.py:33`). -/
def squashNLGo : List Char → ℕ → List Char
  | [], n => emitNL n
  | c :: t, n =>
    if c = '\n' then squashNLGo t (n + 1)
    else emitNL n ++ c :: squashNLGo t 0

/-- `re.sub(r' +', ' ', s)` (`src/utils.py:35`): runs of space characters
(only) collapse to a single space. -/
def collapseSpGo : List Char → ℕ → List Char
  | [], n => if n = 0 then [] else [' ']
  | c :: t, n =>
    if c = ' ' then collapseSpGo t (n + 1)
    else (if n = 0 then [] else [' ']) ++ c :: collapseSpGo t 0

/-- Translation of `normalize_text` (`src/utils.py:26-38`). -/
def normalize_text (l : List Char) : List Char :=
  pyStrip (collapseSpGo (squashNLGo l 0) 0)

/-! ## `src/parsers/sefaz.py` : data model -/

structure IpvaItem where
  ano : Option ℤ
  valor : ℚ
  situacao : String
  deriving DecidableEq

/-- Border-tax item dictionary; the structured extraction fills
`dae`/`vencimento`/`valor_original` while the (unreachable) regex fallback
would fill `competencia`/`valor`, so all keys are optional as in the
source's heterogeneous dicts. -/
structure FrontItem where
  dae : Option String
  vencimento : Option String
  valor_original : Option ℚ
  competencia : Option String
  valor : Option ℚ
  deriving DecidableEq

structure FronteiraDet where
  tem_em_aberto : Bool
  itens : List FrontItem
  deriving DecidableEq

structure DebFiscItem where
  processo : String
  situacao : String
  saldo : ℚ
  deriving DecidableEq

structure DebFiscDet where
  tem : Bool
  itens : List DebFiscItem
  deriving DecidableEq

/-- Result dictionary of `processar_sefaz` (`src/parsers/sefaz.py:313-329`). -/
structure SefazRes where
  tipo_documento : String
  situacao : String
  motivos : List String
  ipva : List IpvaItem
  fronteira : FronteiraDet
  debitos_fiscais : DebFiscDet
  observacao : Option String
  deriving DecidableEq

/-! ## `src/parsers/sefaz.py` : document-type identification -/

def TERMOS_CAB_DEB : List String :=
  ["DÉBITO", "DEBITO", "VALOR", "COMPETÊNCIA", "COMPETENCIA"]

def TERMOS_EXTRATO : List String :=
  ["DÉBITOS", "DEBITOS", "VALOR", "COMPETÊNCIA", "COMPETENCIA", "LISTAGEM"]

/-- Header test of `_identificar_tipo_documento`
(`src/parsers/sefaz.py:120-127`). -/
def cabecalhoDebitos (tabela : List (List String)) : Bool :=
  !tabela.isEmpty &&
    TERMOS_CAB_DEB.any (fun t => hasSub t
      (List.intercalate [' ']
        (((tabela.headD []).filter (fun c => !(c == ""))).map (fun c => upperL (limpaL c.data)))))

/-- Translation of `_identificar_tipo_documento`
(`src/parsers/sefaz.py:109-137`). -/
def identificarTipoDocumento (texto : List Char) (tabelas : List (List (List String))) :
    String :=
  if (hasSub "CERTIDÃO DE REGULARIDADE FISCAL" (upperL texto) ||
      hasSub "CERTIDAO DE REGULARIDADE FISCAL" (upperL texto)) &&
      !(tabelas.any cabecalhoDebitos) then "certidao"
  else if TERMOS_EXTRATO.any (fun t => hasSub t (upperL texto)) then "extrato"
  else if !tabelas.isEmpty then "extrato"
  else "certidao"

/-! ## `src/parsers/sefaz.py` : structured block extraction -/

/-- Second alternative `DEBITOS\s+FISCAIS` (IGNORECASE) at the head of `l`. -/
def debFiscKwAt2 (l : List Char) : Option (List Char) :=
  match matchCI "debitos".data l with
  | some r1 =>
    match matchWS1 r1 with
    | some r2 => matchCI "fiscais".data r2
    | none => none
  | none => none

/-- `DÉBITOS\s+FISCAIS|DEBITOS\s+FISCAIS` (IGNORECASE) at the head of `l`. -/
def debFiscKwAt (l : List Char) : Option (List Char) :=
  match matchCI "débitos".data l with
  | some r1 =>
    match matchWS1 r1 with
    | some r2 => matchCI "fiscais".data r2
    | none => debFiscKwAt2 l
  | none => debFiscKwAt2 l

/-- `FRONTEIRAS|FRONTEIRA` (IGNORECASE) at the head of `l`. -/
def fronteiraKwAt (l : List Char) : Option (List Char) :=
  match matchCI "fronteiras".data l with
  | some r => some r
  | none => matchCI "fronteira".data l

/-- Index of the first line on which `p` finds a match, searching from
index `i`. -/
def achaLinha (p : List Char → Option (List Char)) : List (List Char) → ℕ → Option ℕ
  | [], _ => none
  | linha :: rest, i =>
    if (findPatGo p linha).isSome then some i
    else achaLinha p rest (i + 1)

/-- Index of the first line (from index `i`) whose upper case contains one
of the end markers, defaulting to the total count. -/
def achaFim (marcadores : List String) : List (List Char) → ℕ → ℕ → ℕ
  | [], _, total => total
  | linha :: rest, i, total =>
    if marcadores.any (fun m => hasSub m (upperL linha)) then i
    else achaFim marcadores rest (i + 1) total

/-- Character class `[A-ZÁÉÍÓÚÇ\s]` of the fiscal-debt status group. -/
def isSitChar (c : Char) : Bool :=
  ('A' ≤ c && c ≤ 'Z') || c == 'Á' || c == 'É' || c == 'Í' || c == 'Ó' || c == 'Ú' ||
    c == 'Ç' || pyIsSpace c

/-- The process-number group
`(\d{4}[\.-]?\d{8,}-?\d{2,})` attempted at the head of `l`, with the greedy
`\d{8,}` / optional dash backtracking resolved: a dashed tail needs an
eight-digit run, otherwise the whole run must reach ten digits. -/
def processoAt (l : List Char) : Option (List Char × List Char) :=
  match takeDigits 4 l with
  | some (d4, r1) =>
    let sep := match r1 with
      | c :: _ => if c == '.' || c == '-' then [c] else []
      | [] => []
    let r2 := r1.drop sep.length
    let run := r2.takeWhile pyIsDigit
    let after := r2.drop run.length
    (match after with
     | '-' :: r3 =>
       let tailRun := r3.takeWhile pyIsDigit
       if 8 ≤ run.length ∧ 2 ≤ tailRun.length then
         some (d4 ++ sep ++ run ++ '-' :: tailRun, r3.drop tailRun.length)
       else if 10 ≤ run.length then some (d4 ++ sep ++ run, after)
       else none
     | _ =>
       if 10 ≤ run.length then some (d4 ++ sep ++ run, after)
       else none)
  | none => none

/-- The lazy status group with its continuation:
`(situacao){2,20}?\s+(saldo)` — the shortest status length (2 to 20) whose
continuation matches wins. -/
def sitSaldoAt (l : List Char) : Option (List Char × String × List Char) :=
  ((List.range 19).map (fun n => n + 2)).findSome?
    (fun k =>
      if (l.take k).length = k ∧ (l.take k).all isSitChar then
        match matchWS1 (l.drop k) with
        | some r4 =>
          match moneyP1At r4 with
          | some (g, r5) => some (l.take k, g, r5)
          | none => none
        | none => none
      else none)

/-- One fiscal-debt line match (`src/parsers/sefaz.py:199-205`) at the head
of `l`. -/
def debFiscLinhaAt (l : List Char) : Option (String × String × String) :=
  match processoAt l with
  | some (proc, r1) =>
    match matchWS1 r1 with
    | some r2 =>
      match sitSaldoAt r2 with
      | some (sit, saldo, _) =>
        some (String.mk (pyStrip proc), String.mk (pyStrip sit), String.mk (pyStrip saldo.data))
      | none => none
    | none => none
  | none => none

def findDebFiscLinha : List Char → Option (String × String × String)
  | [] => none
  | c :: t =>
    match debFiscLinhaAt (c :: t) with
    | some r => some r
    | none => findDebFiscLinha t

def TERMOS_CAB_DEBFISC : List String := ["PROCESSO", "SITUAÇÃO", "SITUACAO", "SALDO", "VALOR"]

/-- Per-line processing of the fiscal-debt block
(`src/parsers/sefaz.py:207-229`). -/
def debFiscDaLinha (linha : List Char) : Option DebFiscItem :=
  if TERMOS_CAB_DEBFISC.any (fun t => hasSub t (upperL (limpaL linha))) then none
  else
    match findDebFiscLinha (limpaL linha) with
    | some (proc, sit, saldoStr) =>
      if proc ≠ "" ∨ converter_valor_br_para_float saldoStr > 0 then
        some { processo := proc, situacao := sit,
               saldo := converter_valor_br_para_float saldoStr }
      else none
    | none => none

/-- Translation of `_extrair_debitos_fiscais` (`src/parsers/sefaz.py:163-231`). -/
def extrairDebitosFiscais (texto : List Char) : List DebFiscItem :=
  match achaLinha debFiscKwAt (splitOnNL (normalize_text texto)) 0 with
  | none => []
  | some i =>
    let linhas := splitOnNL (normalize_text texto)
    let fim := achaFim ["FRONTEIRAS", "FRONTEIRA", "IPVA", "CONCLUSÃO", "OBSERVAÇÃO"]
      (linhas.drop (i + 1)) (i + 1) linhas.length
    ((linhas.drop i).take (fim - i)).filterMap debFiscDaLinha

/-- One border-tax line match (`src/parsers/sefaz.py:269-275`):
`(\d{6,})\s+(\d{2}/\d{2}/\d{4})\s+([\d\.]+,\d{2})` at the head of `l`. -/
def fronteiraLinhaAt (l : List Char) : Option (String × String × String) :=
  let run := l.takeWhile pyIsDigit
  if run.length < 6 then none
  else
    match matchWS1 (l.drop run.length) with
    | some r1 =>
      match takeDigits 2 r1 with
      | some (dd, ('/' :: r2)) =>
        match takeDigits 2 r2 with
        | some (mm, ('/' :: r3)) =>
          match takeDigits 4 r3 with
          | some (aa, r4) =>
            match matchWS1 r4 with
            | some r5 =>
              match moneyP1At r5 with
              | some (g, _) =>
                some (String.mk run, String.mk (dd ++ '/' :: mm ++ '/' :: aa), g)
              | none => none
            | none => none
          | none => none
        | _ => none
      | _ => none
    | none => none

def findFronteiraLinha : List Char → Option (String × String × String)
  | [] => none
  | c :: t =>
    match fronteiraLinhaAt (c :: t) with
    | some r => some r
    | none => findFronteiraLinha t

def TERMOS_CAB_FRONT : List String := ["NUM", "DAE", "DT", "VENC", "VALOR", "ORIGINAL"]

/-- Per-line processing of the border-tax block
(`src/parsers/sefaz.py:277-299`). -/
def fronteiraDaLinha (linha : List Char) : Option FrontItem :=
  if TERMOS_CAB_FRONT.any (fun t => hasSub t (upperL (limpaL linha))) then none
  else
    match findFronteiraLinha (limpaL linha) with
    | some (dae, venc, valorStr) =>
      if dae ≠ "" ∨ converter_valor_br_para_float valorStr > 0 then
        some { dae := some dae, vencimento := some venc,
               valor_original := some (converter_valor_br_para_float valorStr),
               competencia := none, valor := none }
      else none
    | none => none

/-- Translation of `_extrair_fronteiras` (`src/parsers/sefaz.py:234-301`). -/
def extrairFronteiras (texto : List Char) : List FrontItem :=
  match achaLinha fronteiraKwAt (splitOnNL (normalize_text texto)) 0 with
  | none => []
  | some i =>
    let linhas := splitOnNL (normalize_text texto)
    let fim := achaFim ["DÉBITOS FISCAIS", "DEBITOS FISCAIS", "IPVA", "CONCLUSÃO"]
      (linhas.drop (i + 1)) (i + 1) linhas.length
    ((linhas.drop i).take (fim - i)).filterMap fronteiraDaLinha

/-! ## `src/parsers/sefaz.py` : IPVA scan -/

def TERMOS_IPVA_GATE : List String := ["IPVA", "ANO", "EXERCÍCIO", "EXERCICIO"]

/-- Lazy scan for the next four-digit group (regex `.*?(\d{4})`),
newline-bounded. -/
def scan4Digits : List Char → Option (List Char × List Char)
  | [] => none
  | c :: t =>
    match takeDigits 4 (c :: t) with
    | some (ds, r) => some (ds, r)
    | none => if c == '\n' then none else scan4Digits t

/-- Lazy scan for `R\$?\s*([\d\.]+,\d{2})` (IGNORECASE), newline-bounded. -/
def scanRValor : List Char → Option (String × List Char)
  | [] => none
  | c :: t =>
    if pyLower c == 'r' then
      match moneyP1At (dropWS (optChar '$' t)) with
      | some (g, r) => some (g, r)
      | none => if c == '\n' then none else scanRValor t
    else if c == '\n' then none
    else scanRValor t

/-- The `re.finditer` loop over
`IPVA.*?(?P<ano>\d{4}).*?R\$?\s*(?P<valor>[\d\.]+,\d{2})`
(`src/parsers/sefaz.py:388-401`); a failed chain after an anchor ends the
scan because every later scan covers a subset of positions. -/
def ipvaGo : ℕ → List Char → List IpvaItem
  | 0, _ => []
  | fuel + 1, l =>
    match findPatGo (fun s => matchCI "ipva".data s) l with
    | some (_, rest) =>
      match scan4Digits rest with
      | some (ds, r2) =>
        match scanRValor r2 with
        | some (valStr, r3) =>
          (if converter_valor_br_para_float valStr ≠ 0 then
            [{ ano := some ((natFromDigits ds : ℕ) : ℤ),
               valor := converter_valor_br_para_float valStr, situacao := "EM ABERTO" }]
          else []) ++ ipvaGo fuel r3
        | none => []
      | none => []
    | none => []

def ipvaScan (nrm : List Char) : List IpvaItem := ipvaGo nrm.length nrm

/-! ## `src/parsers/sefaz.py` : `processar_sefaz` -/

def TERMOS_IRREGULAR : List String :=
  ["irregularidades", "irregularidade", "irregular",
   "débitos pendentes", "debitos pendentes", "débito pendente", "debito pendente",
   "consta débito", "consta debito", "há débito", "ha debito",
   "em atraso", "atraso", "pendências", "pendencias"]

def TERMOS_REGULAR : List String :=
  ["situação regular", "situacao regular", "regularidade",
   "nada consta", "sem pendências", "sem pendencias",
   "certidão negativa", "certidao negativa"]

/-- The irregularity test of `src/parsers/sefaz.py:344-351` on the
normalized, lower-cased text. -/
def temIrregularSefaz (texto : List Char) : Bool :=
  TERMOS_IRREGULAR.any (fun t => hasSub t (lowerL (normalize_text texto)))

def temRegularSefaz (texto : List Char) : Bool :=
  TERMOS_REGULAR.any (fun t => hasSub t (lowerL (normalize_text texto)))

def certidaoSefazObs : String :=
  "Documento é certidão; não contém detalhamento de IPVA/fronteira/débitos fiscais."

def sefazCrashMsg : String :=
  "TypeError: re.finditer called with the document text as the pattern and re.IGNORECASE as the string (sefaz.py:424)"

/-- `" ".join([_limpa(cell) for cell in linha if cell])`
(`src/parsers/sefaz.py:454`). -/
def linhaJunta (linha : List String) : List Char :=
  List.intercalate [' '] ((linha.filter (fun c => !(c == ""))).map (fun c => limpaL c.data))

/-- First truthy cell whose extracted monetary value is positive
(`src/parsers/sefaz.py:457-463`). -/
def linhaValorTab (linha : List String) : Option ℚ :=
  (linha.filter (fun c => !(c == ""))).findSome?
    (fun cell =>
      if extrairValorDeCelula cell > 0 then some (extrairValorDeCelula cell) else none)

/-- `linha_completa[:100] if linha_completa else None`
(`src/parsers/sefaz.py:470`). -/
def linhaDescricao (linha : List String) : Option String :=
  if linhaJunta linha = [] then none else some (String.mk ((linhaJunta linha).take 100))

/-- One row of the table fallback for fiscal debts
(`src/parsers/sefaz.py:450-478`). -/
def tabRowStep (acc2 : SefazRes) (linha : List String) : SefazRes :=
  if (linhaValorTab linha).isSome ∨ (findMMYYYY (linhaJunta linha)).isSome ∨
      (linhaDescricao linha).isSome then
    { acc2 with debitos_fiscais :=
        { tem := true,
          itens := acc2.debitos_fiscais.itens ++
            [{ processo := (linhaDescricao linha).getD "", situacao := "",
               saldo := (linhaValorTab linha).getD 0 }] } }
  else acc2

/-- One table of the fallback (`src/parsers/sefaz.py:441-478`): only tables
whose header row carries debt keywords contribute, header row skipped. -/
def tabStep (acc : SefazRes) (tabela : List (List String)) : SefazRes :=
  if tabela = [] then acc
  else if cabecalhoDebitos tabela then (tabela.drop 1).foldl tabRowStep acc
  else acc

/-- Table fallback for fiscal debts (`src/parsers/sefaz.py:438-478`). -/
def tabelaDebitosFallback (tabelas : List (List (List String))) (r : SefazRes) : SefazRes :=
  tabelas.foldl tabStep r

/-- IPVA step of `processar_sefaz` (`src/parsers/sefaz.py:383-401`): the
scan runs only when the raw upper-cased text carries IPVA evidence, over
the text with all whitespace runs collapsed. -/
def sefazR1 (texto : List Char) (r0 : SefazRes) : SefazRes :=
  if TERMOS_IPVA_GATE.any (fun t => hasSub t (upperL texto)) then
    { r0 with ipva := r0.ipva ++ ipvaScan (squashWsAll texto) }
  else r0

/-- Structured fiscal-debt extraction when IRREGULAR
(`src/parsers/sefaz.py:405-410`). -/
def sefazR2deb (texto : List Char) (r : SefazRes) : SefazRes :=
  if extrairDebitosFiscais texto ≠ [] then
    { r with debitos_fiscais := { tem := true, itens := extrairDebitosFiscais texto } }
  else r

/-- Structured border-tax extraction when IRREGULAR
(`src/parsers/sefaz.py:412-417`). -/
def sefazR2fro (texto : List Char) (r : SefazRes) : SefazRes :=
  if extrairFronteiras texto ≠ [] then
    { r with fronteira := { tem_em_aberto := true, itens := extrairFronteiras texto } }
  else r

/-- Structured extraction step (`src/parsers/sefaz.py:403-417`), gated on
the IRREGULAR status. -/
def sefazR2 (texto : List Char) (r : SefazRes) : SefazRes :=
  if r.situacao = "IRREGULAR" then sefazR2fro texto (sefazR2deb texto r) else r

/-- Table fallback step (`src/parsers/sefaz.py:438-478`), gated on the
fiscal-debt item list being empty. -/
def sefazR3 (tabelas : List (List (List String))) (r : SefazRes) : SefazRes :=
  if r.debitos_fiscais.itens = [] then tabelaDebitosFallback tabelas r else r

/-- No-debt observation rule of `processar_sefaz`
(`src/parsers/sefaz.py:480-483`). -/
def sefazSemDeb (r : SefazRes) : SefazRes :=
  if r.ipva = [] ∧ r.fronteira.itens = [] ∧ r.debitos_fiscais.itens = [] ∧
      pyFalsyOptStr r.observacao then
    { r with observacao := some semDebitoMsg }
  else r

/-- Steps of `processar_sefaz` after the status decision
(`src/parsers/sefaz.py:383-485`): IPVA scan, structured extraction when
IRREGULAR, the broken border-tax fallback (which raises a `TypeError`
because `re.finditer` at `sefaz.py:424` receives the text as the pattern and
`re.IGNORECASE` as the string — `padrao_fronteira` is built but never
passed), the table fallback, and the no-debt observation.  None of these
steps changes `situacao`. -/
def sefazResto (texto : List Char) (tabelas : List (List (List String))) (tipoDoc : String)
    (r0 : SefazRes) : Except String SefazRes :=
  if tipoDoc = "extrato" ∧ (sefazR2 texto (sefazR1 texto r0)).fronteira.itens = [] ∧
      (hasSub "FRONTEIRA" (upperL texto) ∨ hasSub "ICMS ANTECIPADO" (upperL texto)) then
    Except.error sefazCrashMsg
  else
    Except.ok (sefazSemDeb (sefazR3 tabelas (sefazR2 texto (sefazR1 texto r0))))

def sefazBase (tipoDoc situ : String) (motivo : String) : SefazRes :=
  { tipo_documento := tipoDoc, situacao := situ, motivos := [motivo], ipva := [],
    fronteira := { tem_em_aberto := false, itens := [] },
    debitos_fiscais := { tem := false, itens := [] }, observacao := none }

/-- Translation of `processar_sefaz` (`src/parsers/sefaz.py:308-485`).
Exceptions raised inside the Python function surface as `Except.error`. -/
def processar_sefaz (texto : String) (tabelas : List (List (List String))) :
    Except String SefazRes :=
  if temIrregularSefaz texto.data then
    sefazResto texto.data tabelas (identificarTipoDocumento texto.data tabelas)
      (sefazBase (identificarTipoDocumento texto.data tabelas) "IRREGULAR"
        "Documento contém irregularidades ou débitos pendentes")
  else if temRegularSefaz texto.data then
    (if identificarTipoDocumento texto.data tabelas = "certidao" then
      Except.ok
        { sefazBase "certidao" "REGULAR" "Certidão de regularidade fiscal emitida" with
            observacao := some certidaoSefazObs }
    else
      sefazResto texto.data tabelas (identificarTipoDocumento texto.data tabelas)
        (sefazBase (identificarTipoDocumento texto.data tabelas) "REGULAR"
          "Documento indica situação regular"))
  else
    sefazResto texto.data tabelas (identificarTipoDocumento texto.data tabelas)
      (sefazBase (identificarTipoDocumento texto.data tabelas) "INDETERMINADO"
        "Texto não corresponde ao padrão esperado")

def sefazOk {α : Type} (e : Except String α) : Bool :=
  match e with
  | .ok _ => true
  | .error _ => false

/-! ## `src/parsers/sefaz.py` : totals of `interpretar_pdf_sefaz` -/

structure PendIpva where
  exercicio : String
  placa : String
  renavam : String
  valor_original : ℚ
  valor_total : ℚ
  status : String
  deriving DecidableEq

structure PendFront where
  periodo_referencia : Option String
  codigo_receita : String
  descricao : String
  data_vencimento : String
  valor_total : ℚ
  deriving DecidableEq

/-- Items of `icms_competencias_aberto` are never appended by the parser;
only their `valor_estimado` key is read by the totals. -/
structure PendIcmsAberto where
  valor_estimado : ℚ
  deriving DecidableEq

structure PendDebFisc where
  numero_processo : String
  natureza_debito : String
  periodo : String
  fase_processual : String
  valor_consolidado : ℚ
  deriving DecidableEq

structure Pendencias where
  ipva : List PendIpva
  icms_fronteira_antecipado : List PendFront
  icms_competencias_aberto : List PendIcmsAberto
  debitos_fiscais_autuacoes : List PendDebFisc
  deriving DecidableEq

structure ResumoFinanceiro where
  total_ipva : ℚ
  total_icms_fronteira : ℚ
  total_icms_normal : ℚ
  total_divida_ativa : ℚ
  total_geral_consolidado : ℚ
  deriving DecidableEq

structure SefazEstadualPart where
  pendencias : Pendencias
  resumo : ResumoFinanceiro
  deriving DecidableEq

def sumBy {α : Type} (f : α → ℚ) (l : List α) : ℚ := l.foldl (fun a x => a + f x) 0

/-- The pendency-list population of `interpretar_pdf_sefaz`
(`src/parsers/sefaz.py:556-589`), appending to whatever pendencies already
exist in the accumulator. -/
def montarPendencias (prev : Pendencias) (dp : SefazRes) : Pendencias :=
  { ipva := prev.ipva ++ dp.ipva.map (fun it =>
      { exercicio := match it.ano with
          | some a => if a ≠ 0 then toString a else ""
          | none => "",
        placa := "", renavam := "", valor_original := 0,
        valor_total := it.valor, status := it.situacao }),
    icms_fronteira_antecipado := prev.icms_fronteira_antecipado ++
      (if dp.fronteira.itens ≠ [] then
        dp.fronteira.itens.map (fun it =>
          { periodo_referencia := it.competencia, codigo_receita := "",
            descricao := "ICMS Antecipado/Fronteira", data_vencimento := "",
            valor_total := it.valor.getD 0 })
      else []),
    icms_competencias_aberto := prev.icms_competencias_aberto,
    debitos_fiscais_autuacoes := prev.debitos_fiscais_autuacoes ++
      (if dp.debitos_fiscais.itens ≠ [] then
        dp.debitos_fiscais.itens.map (fun it =>
          { numero_processo := it.processo, natureza_debito := it.situacao, periodo := "",
            fase_processual := "Cobrança Administrativa", valor_consolidado := it.saldo })
      else []) }

/-- The totals computation of `interpretar_pdf_sefaz`
(`src/parsers/sefaz.py:594-607`). -/
def montarSefazEstadual (prev : Pendencias) (dp : SefazRes) : SefazEstadualPart :=
  { pendencias := montarPendencias prev dp,
    resumo :=
      { total_ipva := sumBy (fun d => d.valor_total) (montarPendencias prev dp).ipva,
        total_icms_fronteira :=
          sumBy (fun d => d.valor_total) (montarPendencias prev dp).icms_fronteira_antecipado,
        total_icms_normal :=
          sumBy (fun d => d.valor_estimado) (montarPendencias prev dp).icms_competencias_aberto,
        total_divida_ativa :=
          sumBy (fun d => d.valor_consolidado) (montarPendencias prev dp).debitos_fiscais_autuacoes,
        total_geral_consolidado :=
          sumBy (fun d => d.valor_total) (montarPendencias prev dp).ipva +
            sumBy (fun d => d.valor_total) (montarPendencias prev dp).icms_fronteira_antecipado +
            sumBy (fun d => d.valor_estimado) (montarPendencias prev dp).icms_competencias_aberto +
            sumBy (fun d => d.valor_consolidado)
              (montarPendencias prev dp).debitos_fiscais_autuacoes } }

def pendenciasVazias : Pendencias :=
  { ipva := [], icms_fronteira_antecipado := [], icms_competencias_aberto := [],
    debitos_fiscais_autuacoes := [] }

/-- The SEFAZ result record for a regular-certificate text such as
`"nada consta"` with no tables. -/
def c10dp : SefazRes :=
  { sefazBase "certidao" "REGULAR" "Certidão de regularidade fiscal emitida" with
      observacao := some certidaoSefazObs }

/-- The SEFAZ result for the C4 witness text. -/
def c4rec : SefazRes :=
  { sefazBase "certidao" "IRREGULAR" "Documento contém irregularidades ou débitos pendentes" with
      observacao := some semDebitoMsg }

/-- Leftmost `([\d\.]+,\d{2})` match anywhere in the text. -/
def findMoneyBR : List Char → Option String
  | [] => none
  | c :: t =>
    match moneyP1At (c :: t) with
    | some (s, _) => some s
    | none => findMoneyBR t

/-- SEFAZ text mixing irregularity and regularity phrases; no border-tax
evidence, so processing completes. -/
def c4texto : String := "irregularidades em atraso situação regular nada consta"

/-- SEFAZ text with irregularity phrases plus border-tax evidence: reaches
the broken fallback at `src/parsers/sefaz.py:424` and raises. -/
def c4cexTexto : String := "irregularidades em atraso FRONTEIRA VALOR"

/-- Statement text with an ICMS-antecipado mention, a competency and an
amount, as in the C7 premise. -/
def c7texto : String := "LISTAGEM ICMS ANTECIPADO 01/2024 R$ 1.234,56"

/-- Regular-certificate text for the SEFAZ totals witness. -/
def c10texto : String := "nada consta"

instance instDecEqExceptStr {ε α : Type} [DecidableEq ε] [DecidableEq α] :
    DecidableEq (Except ε α)
  | .ok a, .ok b =>
    if h : a = b then .isTrue (by rw [h])
    else .isFalse (fun hh => h (by cases hh; rfl))
  | .error a, .error b =>
    if h : a = b then .isTrue (by rw [h])
    else .isFalse (fun hh => h (by cases hh; rfl))
  | .ok _, .error _ => .isFalse (fun hh => Except.noConfusion hh)
  | .error _, .ok _ => .isFalse (fun hh => Except.noConfusion hh)

/-! ## Concrete Federal Revenue document for the table-row test vector -/

def c1header : List String := ["CODIGO", "COMPETENCIA", "SALDO DEVEDOR", "SITUACAO"]

def c1row : List String := ["1138-01", "01/2024", "1.234,56", "DEVEDOR"]

def c1tab : List (List String) := [c1header, c1row]

/-- The debt candidate extracted from `c1row`. -/
def c1cand : DebitoCand :=
  { codigo := "1138-01", competencia := some "2024-01", valor := some (1234.56 : ℚ),
    categoria := some "patronal", tributo := none,
    descricao := some "1138-01 01/2024 1.234,56 DEVEDOR",
    linha_completa_upper := "1138-01 01/2024 1.234,56 DEVEDOR", tem_devedor := true }

/-- The contribution detail item recorded for `c1row`. -/
def c1item : ItemDetalhe :=
  { competencia := some "2024-01", codigo := "1138-01",
    descricao := some "1138-01 01/2024 1.234,56 DEVEDOR", categoria := "patronal",
    valor := some (1234.56 : ℚ), fonte := "receita_federal" }

/-! ## Lemmas about digits, grouping and cleaning -/

theorem digitVal_digitChar {d : ℕ} (h : d < 10) : digitVal (Nat.digitChar d) = d := by
  interval_cases d <;> rfl

theorem pyIsDigit_digitChar {d : ℕ} (h : d < 10) : pyIsDigit (Nat.digitChar d) = true := by
  interval_cases d <;> rfl

theorem digitChar_ne_comma {d : ℕ} (h : d < 10) : (Nat.digitChar d == ',') = false := by
  interval_cases d <;> rfl

theorem digitChar_ne_dot {d : ℕ} (h : d < 10) : (Nat.digitChar d == '.') = false := by
  interval_cases d <;> rfl

theorem digitChar_ne_dot' {d : ℕ} (h : d < 10) : Nat.digitChar d ≠ '.' := by
  interval_cases d <;> decide

theorem digitChar_ne_comma' {d : ℕ} (h : d < 10) : Nat.digitChar d ≠ ',' := by
  interval_cases d <;> decide

theorem digitChar_bne_dot {d : ℕ} (h : d < 10) : (Nat.digitChar d != '.') = true := by
  interval_cases d <;> rfl

theorem digitChar_bne_comma {d : ℕ} (h : d < 10) : (Nat.digitChar d != ',') = true := by
  interval_cases d <;> rfl

theorem pyIsSpace_digitChar {d : ℕ} (h : d < 10) : pyIsSpace (Nat.digitChar d) = false := by
  interval_cases d <;> rfl

theorem swap_digitChar {d : ℕ} (h : d < 10) : swapDotComma (Nat.digitChar d) = Nat.digitChar d := by
  interval_cases d <;> rfl

theorem keep_digitChar {d : ℕ} (h : d < 10) : keepMoneyChar (Nat.digitChar d) = true := by
  interval_cases d <;> rfl

theorem natFromDigits_reverse_map (ds : List ℕ) (h : ∀ d ∈ ds, d < 10) :
    natFromDigits ((ds.map Nat.digitChar).reverse) = Nat.ofDigits 10 ds := by
  induction ds with
  | nil => simp [natFromDigits, Nat.ofDigits]
  | cons d tl ih =>
    have hd : d < 10 := h d (by simp)
    have htl : ∀ x ∈ tl, x < 10 := fun x hx => h x (by simp [hx])
    simp only [List.map_cons, List.reverse_cons, natFromDigits, List.foldl_append,
      List.foldl_cons, List.foldl_nil]
    have := ih htl
    simp only [natFromDigits] at this
    rw [this, digitVal_digitChar hd, Nat.ofDigits_cons]
    ring

theorem groupDigitsLE_swap_filter (ds : List ℕ) (k : ℕ) (h : ∀ d ∈ ds, d < 10) :
    ((groupDigitsLE ds k).map swapDotComma).filter (fun c => c != '.') =
      ds.map Nat.digitChar := by
  induction ds generalizing k with
  | nil => simp [groupDigitsLE]
  | cons d tl ih =>
    have hd : d < 10 := h d (by simp)
    have htl : ∀ x ∈ tl, x < 10 := fun x hx => h x (by simp [hx])
    cases k with
    | zero =>
      simp only [groupDigitsLE, List.map_cons, List.filter_cons, swap_digitChar hd]
      rw [show swapDotComma ',' = '.' from rfl]
      simp [digitChar_ne_dot' hd, ih 2 htl]
    | succ k =>
      simp only [groupDigitsLE, List.map_cons, List.filter_cons, swap_digitChar hd]
      simp [digitChar_ne_dot' hd, ih k htl]

theorem groupDigitsLE_swap_keep (ds : List ℕ) (k : ℕ) (h : ∀ d ∈ ds, d < 10) :
    ∀ c ∈ (groupDigitsLE ds k).map swapDotComma, keepMoneyChar c = true := by
  induction ds generalizing k with
  | nil => simp [groupDigitsLE]
  | cons d tl ih =>
    have hd : d < 10 := h d (by simp)
    have htl : ∀ x ∈ tl, x < 10 := fun x hx => h x (by simp [hx])
    cases k with
    | zero =>
      intro c hc
      simp only [groupDigitsLE, List.map_cons, List.mem_cons] at hc
      rcases hc with hc | hc | hc
      · subst hc; rfl
      · subst hc; rw [swap_digitChar hd]; exact keep_digitChar hd
      · exact ih 2 htl c hc
    | succ k =>
      intro c hc
      simp only [groupDigitsLE, List.map_cons, List.mem_cons] at hc
      rcases hc with hc | hc
      · subst hc; rw [swap_digitChar hd]; exact keep_digitChar hd
      · exact ih k htl c hc

theorem intDigitsLE_lt (m : ℕ) : ∀ d ∈ intDigitsLE m, d < 10 := by
  intro d hd
  unfold intDigitsLE at hd
  split at hd
  · simp at hd; omega
  · exact Nat.digits_lt_base (by norm_num) hd

theorem ofDigits_intDigitsLE (m : ℕ) : Nat.ofDigits 10 (intDigitsLE m) = m := by
  unfold intDigitsLE
  split
  · simp [Nat.ofDigits]; omega
  · exact Nat.ofDigits_digits 10 m

theorem filter_dropWhile (p q : Char → Bool) (h : ∀ c, q c = true → p c = false) :
    ∀ l : List Char, (l.dropWhile q).filter p = l.filter p := by
  intro l
  induction l with
  | nil => rfl
  | cons a tl ih =>
    by_cases ha : q a = true
    · rw [List.dropWhile_cons_of_pos ha, ih, List.filter_cons, h a ha]
      simp
    · rw [List.dropWhile_cons_of_neg (by simp [ha])]

theorem filter_pyStrip (p : Char → Bool) (h : ∀ c, pyIsSpace c = true → p c = false)
    (l : List Char) : (pyStrip l).filter p = l.filter p := by
  unfold pyStrip
  rw [List.filter_reverse, filter_dropWhile p pyIsSpace h, List.filter_reverse,
    List.reverse_reverse, filter_dropWhile p pyIsSpace h]

theorem takeWhile_middle (p : Char → Bool) (x : Char) (l2 : List Char) (hx : p x = false) :
    ∀ l1 : List Char, (∀ c ∈ l1, p c = true) →
      (l1 ++ x :: l2).takeWhile p = l1 ∧ (l1 ++ x :: l2).dropWhile p = x :: l2 := by
  intro l1
  induction l1 with
  | nil =>
    intro _
    constructor
    · simp [List.takeWhile_cons, hx]
    · simp [List.dropWhile_cons, hx]
  | cons a tl ih =>
    intro h1
    have ha : p a = true := h1 a (by simp)
    have := ih (fun c hc => h1 c (by simp [hc]))
    constructor
    · simp [List.takeWhile_cons, ha, this.1]
    · simp [List.dropWhile_cons, ha, this.2]

theorem pyFloat_nonneg {l : List Char} {q : ℚ} (h : pyFloatOfClean l = some q) : 0 ≤ q := by
  unfold pyFloatOfClean at h
  split at h
  · cases h
  split at h
  · cases h
  split at h
  · dsimp only at h
    split at h
    · cases h
    · rw [Option.some_inj] at h
      subst h
      positivity
  · split at h
    · cases h
    · rw [Option.some_inj] at h
      subst h
      positivity

/-! ## Claim theorems for the money normalizers (C2, C8) -/

/-- C2 helper: the digit/comma shape of `pyCommaFormat` after the comma/dot
swap, filtered back down by the parser's cleaning steps, recovers the plain
big-endian digit string. -/
theorem pyCommaFormat_parse (m : ℕ) :
    ((pyCommaFormat m).map swapDotComma).filter (fun c => c != '.') = digitStr m := by
  unfold pyCommaFormat digitStr
  rw [List.map_reverse, List.filter_reverse,
    groupDigitsLE_swap_filter (intDigitsLE m) 3 (intDigitsLE_lt m)]

theorem keep_not_space (c : Char) (hc : pyIsSpace c = true) : keepMoneyChar c = false := by
  simp only [pyIsSpace, Bool.or_eq_true, decide_eq_true_eq] at hc
  rcases hc with ((((h | h) | h) | h) | h) | h <;> subst h <;> rfl

theorem limpoOf_as_filter (s : String) : limpoOf s = s.data.filter keepMoneyChar := by
  unfold limpoOf
  exact filter_pyStrip keepMoneyChar keep_not_space s.data

theorem mem_digitStr {m : ℕ} {c : Char} (hc : c ∈ digitStr m) :
    ∃ d, d < 10 ∧ c = Nat.digitChar d := by
  unfold digitStr at hc
  rw [List.mem_reverse, List.mem_map] at hc
  obtain ⟨d, hd, rfl⟩ := hc
  exact ⟨d, intDigitsLE_lt m d hd, rfl⟩

theorem natFromDigits_digitStr (m : ℕ) : natFromDigits (digitStr m) = m := by
  unfold digitStr
  rw [natFromDigits_reverse_map _ (intDigitsLE_lt m), ofDigits_intDigitsLE]

/-- Parsing the formatted pair (integer part `m`, two-digit cent part `f`)
back through `converter_valor_br_para_float` recovers the exact amount. -/
theorem converter_formatted (m f : ℕ) (hf : f < 100) :
    converter_valor_br_para_float
      ("R$ " ++ String.mk
        ((pyCommaFormat m ++
          ('.' :: [Nat.digitChar (f / 10), Nat.digitChar (f % 10)])).map swapDotComma)) =
      (m : ℚ) + (f : ℚ) / 100 := by
  have hd1 : f / 10 < 10 := by omega
  have hd2 : f % 10 < 10 := by omega
  have hdata :
      ("R$ " ++ String.mk
        ((pyCommaFormat m ++
          ('.' :: [Nat.digitChar (f / 10), Nat.digitChar (f % 10)])).map swapDotComma)).data =
      'R' :: '$' :: ' ' ::
        ((pyCommaFormat m).map swapDotComma ++
          (',' :: [Nat.digitChar (f / 10), Nat.digitChar (f % 10)])) := by
    show ('R' :: '$' :: ' ' ::
        ((pyCommaFormat m ++
          ('.' :: [Nat.digitChar (f / 10), Nat.digitChar (f % 10)])).map swapDotComma)) = _
    rw [List.map_append, List.map_cons, List.map_cons, List.map_cons, List.map_nil]
    rw [show swapDotComma '.' = ',' from rfl, swap_digitChar hd1, swap_digitChar hd2]
  have hGkeep : ∀ c ∈ (pyCommaFormat m).map swapDotComma, keepMoneyChar c = true := by
    unfold pyCommaFormat
    rw [List.map_reverse]
    intro c hc
    rw [List.mem_reverse] at hc
    exact groupDigitsLE_swap_keep _ 3 (intDigitsLE_lt m) c hc
  have hlimpo :
      limpoOf ("R$ " ++ String.mk
        ((pyCommaFormat m ++
          ('.' :: [Nat.digitChar (f / 10), Nat.digitChar (f % 10)])).map swapDotComma)) =
      (pyCommaFormat m).map swapDotComma ++
        (',' :: [Nat.digitChar (f / 10), Nat.digitChar (f % 10)]) := by
    rw [limpoOf_as_filter, hdata]
    rw [List.filter_cons, List.filter_cons, List.filter_cons, List.filter_append]
    rw [show keepMoneyChar 'R' = false from rfl, show keepMoneyChar '$' = false from rfl,
      show keepMoneyChar ' ' = false from rfl]
    simp only [Bool.false_eq_true, if_false]
    rw [List.filter_eq_self.mpr hGkeep]
    rw [List.filter_cons, List.filter_cons, List.filter_cons, List.filter_nil]
    rw [show keepMoneyChar ',' = true from rfl, keep_digitChar hd1, keep_digitChar hd2]
    simp
  have hne : ("R$ " ++ String.mk
        ((pyCommaFormat m ++
          ('.' :: [Nat.digitChar (f / 10), Nat.digitChar (f % 10)])).map swapDotComma)) ≠ "" := by
    intro h
    have := congrArg String.data h
    rw [hdata] at this
    simp at this
  have hmapD : (digitStr m).map (fun c => if c == ',' then '.' else c) = digitStr m := by
    have hid : ∀ c ∈ digitStr m, (if c == ',' then '.' else c) = id c := by
      intro c hc
      obtain ⟨d, hd, rfl⟩ := mem_digitStr hc
      rw [digitChar_ne_comma hd]
      rfl
    rw [List.map_congr_left hid, List.map_id]
  have hfil : List.filter (fun c => c != '.')
      (',' :: [Nat.digitChar (f / 10), Nat.digitChar (f % 10)]) =
      ',' :: [Nat.digitChar (f / 10), Nat.digitChar (f % 10)] := by
    simp [digitChar_bne_dot hd1, digitChar_bne_dot hd2]
  have hrw :
      brDecimalRewrite
        ((pyCommaFormat m).map swapDotComma ++
          (',' :: [Nat.digitChar (f / 10), Nat.digitChar (f % 10)])) =
      digitStr m ++ ('.' :: [Nat.digitChar (f / 10), Nat.digitChar (f % 10)]) := by
    unfold brDecimalRewrite
    rw [if_pos]
    · unfold eraseAllCh
      rw [List.filter_append, pyCommaFormat_parse m, hfil]
      unfold replAllCh
      rw [List.map_append, hmapD]
      congr 1
      simp only [List.map_cons, List.map_nil]
      rw [show (if (',' == ',') = true then '.' else ',') = '.' from rfl,
        digitChar_ne_comma hd1, digitChar_ne_comma hd2]
      simp
    · unfold hasChar
      rw [List.any_append]
      simp
  have hfloat :
      pyFloatOfClean (digitStr m ++ ('.' :: [Nat.digitChar (f / 10), Nat.digitChar (f % 10)])) =
      some ((m : ℚ) + (f : ℚ) / 100) := by
    have hDdig : ∀ c ∈ digitStr m, (pyIsDigit c || c == '.') = true := by
      intro c hc
      obtain ⟨d, hd, rfl⟩ := mem_digitStr hc
      rw [pyIsDigit_digitChar hd]
      rfl
    have hall : ((digitStr m ++
        ('.' :: [Nat.digitChar (f / 10), Nat.digitChar (f % 10)])).all
          (fun c => pyIsDigit c || c == '.')) = true := by
      rw [List.all_eq_true]
      intro c hc
      rw [List.mem_append] at hc
      rcases hc with hc | hc
      · exact hDdig c hc
      · simp only [List.mem_cons, List.not_mem_nil, or_false] at hc
        rcases hc with rfl | rfl | rfl
        · rfl
        · rw [pyIsDigit_digitChar hd1]; rfl
        · rw [pyIsDigit_digitChar hd2]; rfl
    have hcountD : (digitStr m).count '.' = 0 := by
      rw [List.count_eq_zero]
      intro hc
      obtain ⟨d, hd, he⟩ := mem_digitStr hc
      exact digitChar_ne_dot' hd he.symm
    have hcount :
        ((digitStr m ++
          ('.' :: [Nat.digitChar (f / 10), Nat.digitChar (f % 10)])).count '.') = 1 := by
      rw [List.count_append, hcountD]
      rw [List.count_cons, List.count_cons, List.count_cons, List.count_nil]
      rw [show ('.' == '.') = true from rfl, digitChar_ne_dot hd1, digitChar_ne_dot hd2]
      rfl
    have hsplit := takeWhile_middle (fun c => c != '.') '.'
      [Nat.digitChar (f / 10), Nat.digitChar (f % 10)] (by rfl) (digitStr m)
      (by
        intro c hc
        obtain ⟨d, hd, rfl⟩ := mem_digitStr hc
        exact digitChar_bne_dot hd)
    unfold pyFloatOfClean
    rw [if_neg (by rw [hall]; simp), hcount]
    rw [if_neg (by omega), if_pos rfl]
    dsimp only
    rw [hsplit.1, hsplit.2]
    simp only [List.tail_cons, List.length_cons, List.length_nil]
    rw [if_neg (by simp)]
    rw [natFromDigits_digitStr]
    have hnf2 : natFromDigits [Nat.digitChar (f / 10), Nat.digitChar (f % 10)] = f := by
      unfold natFromDigits
      rw [List.foldl_cons, List.foldl_cons, List.foldl_nil]
      rw [digitVal_digitChar hd1, digitVal_digitChar hd2]
      omega
    rw [hnf2]
    norm_num
  unfold converter_valor_br_para_float
  rw [if_neg hne, hlimpo, if_neg (by simp), hrw, hfloat]
  rfl

/-- C2: `converter_valor_br_para_float` is a left inverse of
`formatar_moeda_br` on every representable non-negative amount (an exact
number of cents `n`, i.e. at most two fraction digits), including zero, which
formats as `"R$ 0,00"`.  Python floats are modeled as exact rationals. -/
theorem moeda_roundtrip (n : ℕ) :
    converter_valor_br_para_float (formatar_moeda_br ((n : ℚ) / 100)) = (n : ℚ) / 100 := by
  by_cases hn : n = 0
  · subst hn
    rw [show ((0 : ℕ) : ℚ) / 100 = 0 by norm_num]
    rw [show formatar_moeda_br 0 = "R$ 0,00" by rw [formatar_moeda_br]; rw [if_pos rfl]]
    rw [show converter_valor_br_para_float "R$ 0,00" =
        ((natFromDigits ['0'] : ℚ) + (natFromDigits ['0', '0'] : ℚ) / (10 : ℚ) ^ 2) from rfl]
    rw [show natFromDigits ['0'] = 0 from rfl, show natFromDigits ['0', '0'] = 0 from rfl]
    norm_num
  · have hv : ¬((n : ℚ) / 100 = 0) := by
      rw [div_eq_zero_iff]
      simp [hn]
    have hcents : centsOf ((n : ℚ) / 100) = n := by
      unfold centsOf
      have h1 : (n : ℚ) / 100 * 100 = (n : ℚ) := by field_simp
      rw [h1]
      have h2 : Int.floor ((n : ℚ) + 1 / 2) = (n : ℤ) := by
        rw [Int.floor_eq_iff]
        constructor
        · push_cast
          linarith
        · push_cast
          linarith
      rw [h2]
      simp
    unfold formatar_moeda_br
    rw [if_neg hv, hcents]
    rw [converter_formatted (n / 100) (n % 100) (Nat.mod_lt n (by norm_num))]
    have hmf : 100 * (n / 100) + n % 100 = n := by omega
    have : ((n / 100 : ℕ) : ℚ) + ((n % 100 : ℕ) : ℚ) / 100 = (n : ℚ) / 100 := by
      field_simp
      rw [show ((n / 100 : ℕ) : ℚ) * 100 + ((n % 100 : ℕ) : ℚ) = (n : ℚ) by
        exact_mod_cast by omega]
    exact this

/-- C8: the Brazilian money parser is total and safe: for every input string
the result is non-negative (all sign characters are removed by the cleaning
step), and whenever the cleaned string is not parseable as a number the
result is exactly `0`. -/
theorem converter_total_seguro (s : String) :
    0 ≤ converter_valor_br_para_float s ∧
      (pyFloatOfClean (brDecimalRewrite (limpoOf s)) = none →
        converter_valor_br_para_float s = 0) := by
  unfold converter_valor_br_para_float
  by_cases h0 : s = ""
  · rw [if_pos h0]
    exact ⟨le_refl 0, fun _ => rfl⟩
  · rw [if_neg h0]
    by_cases h1 : limpoOf s = []
    · rw [if_pos h1]
      exact ⟨le_refl 0, fun _ => rfl⟩
    · rw [if_neg h1]
      cases hx : pyFloatOfClean (brDecimalRewrite (limpoOf s)) with
      | none => exact ⟨le_refl 0, fun _ => rfl⟩
      | some q => exact ⟨pyFloat_nonneg hx, fun h3 => Option.noConfusion h3⟩

/-- C8 witness: a concrete unparseable input yields exactly `0`, and a
minus-signed input yields a non-negative value. -/
theorem converter_total_seguro_witness :
    converter_valor_br_para_float "abc" = 0 ∧ 0 ≤ converter_valor_br_para_float "-5,00" :=
  ⟨(converter_total_seguro "abc").2 (by decide), (converter_total_seguro "-5,00").1⟩

/-- C5: evidence that `tem_algum_dado` is `False` on an accumulator whose
only populated field is the nested `receita_federal` record: the check at
`src/parsers/base.py:101` tests `sefaz_estadual` and `fgts` but omits
`receita_federal`, contradicting the claim (and the method's own
docstring). -/
theorem tem_algum_dado_ignora_receita :
    accSoReceita.tem_algum_dado = false ∧ accSoReceita.receita_federal ≠ [] :=
  ⟨rfl, by decide⟩

/-- C6 counterexample: for a regular-certificate report whose SEFAZ
observation is already set, `aplicar_regra_sem_debito` replaces it by the
default no-debt text (the border-tax branch at `src/core.py:831-833` assigns
unconditionally), so the rule does overwrite an existing observation. -/
theorem regra_sem_debito_sobrescreve_cex :
    relCertidao.sefaz.observacao = some certidaoObsMsg ∧
      (aplicar_regra_sem_debito relCertidao).sefaz.observacao = some semDebitoMsg ∧
      certidaoObsMsg ≠ semDebitoMsg :=
  ⟨rfl, rfl, by decide⟩

/-- C6 (amended): `aplicar_regra_sem_debito` preserves an already-set,
non-empty SEFAZ observation exactly when the border-tax branch does not fire
(border-tax flag set or list non-empty); only the fiscal-debt branch checks
before writing, so with an empty border-tax section the observation is
overwritten with the default text. -/
theorem regra_sem_debito_preserva (rel : Relatorio) (s : String)
    (hobs : rel.sefaz.observacao = some s) (hs : s ≠ "")
    (hfr : rel.sefaz.fronteira.tem_em_aberto = true ∨ rel.sefaz.fronteira.itens ≠ []) :
    (aplicar_regra_sem_debito rel).sefaz.observacao = some s := by
  have hfr' : ¬(rel.sefaz.fronteira.tem_em_aberto = false ∧ rel.sefaz.fronteira.itens = []) := by
    rcases hfr with h | h
    · intro hc
      rw [h] at hc
      exact absurd hc.1 (by simp)
    · intro hc
      exact h hc.2
  have hfalsy : pyFalsyOptStr (some s) = false := by
    unfold pyFalsyOptStr pyTruthyOptStr
    simp [hs]
  unfold aplicar_regra_sem_debito
  dsimp only
  split_ifs <;> simp_all [pyFalsyOptStr, pyTruthyOptStr]

theorem digit_not_space {c : Char} (h : pyIsDigit c = true) : pyIsSpace c = false := by
  simp only [pyIsDigit, Bool.and_eq_true, decide_eq_true_eq] at h
  have hne : ∀ x : Char, x < '0' → c ≠ x := by
    intro x hx e
    subst e
    exact absurd (lt_of_lt_of_le hx h.1) (lt_irrefl _)
  unfold pyIsSpace
  rw [decide_eq_false (hne ' ' (by decide)), decide_eq_false (hne '\t' (by decide)),
    decide_eq_false (hne '\n' (by decide)), decide_eq_false (hne '\r' (by decide)),
    decide_eq_false (hne '\x0b' (by decide)), decide_eq_false (hne '\x0c' (by decide))]
  rfl

theorem mmyyyy_normaliza (t : String) (h : isMMYYYYtok t = true) :
    ∃ n, normalizarCompetencia t = some n ∧ isYYYYMM n = true := by
  unfold isMMYYYYtok at h
  split at h
  case h_2 => cases h
  case h_1 a b s c d e f heq =>
    simp only [Bool.and_eq_true, beq_iff_eq] at h
    obtain ⟨⟨⟨⟨⟨⟨ha, hb⟩, hs⟩, hc⟩, hd⟩, he⟩, hf⟩ := h
    subst hs
    have ht : t ≠ "" := by
      intro e
      rw [e] at heq
      simp at heq
    have hstrip : pyStrip [a, b, '/', c, d, e, f] = [a, b, '/', c, d, e, f] := by
      unfold pyStrip
      rw [List.dropWhile_cons_of_neg (by rw [digit_not_space ha]; simp)]
      rw [show ([a, b, '/', c, d, e, f] : List Char).reverse = [f, e, d, c, '/', b, a] from by
        simp]
      rw [List.dropWhile_cons_of_neg (by rw [digit_not_space hf]; simp)]
      simp
    have hnorm : normMMYYYY [a, b, '/', c, d, e, f] = some (String.mk [c, d, e, f, '-', a, b]) := by
      unfold normMMYYYY
      simp [ha, hb, hc, hd, he, hf]
    refine ⟨String.mk [c, d, e, f, '-', a, b], ?_, ?_⟩
    · unfold normalizarCompetencia
      rw [if_neg ht, heq, hstrip, hnorm]
    · unfold isYYYYMM
      rw [show (String.mk [c, d, e, f, '-', a, b]).data = [c, d, e, f, '-', a, b] from rfl]
      simp [ha, hb, hc, hd, he, hf]

/-- C9: whenever the FGTS text is not classified REGULAR and the
de-duplicated competency candidates collected from the pendency window are
exactly two distinct `MM/YYYY` tokens, `processar_fgts` reports IRREGULAR
with exactly two pending items, each with a `YYYY-MM`-normalized competency,
no amount, and status "EM ABERTO". -/
theorem fgts_duas_competencias (texto t1 t2 : String)
    (hreg : fgtsRegular (lowerL texto.data) = false)
    (hext : fgtsCompetencias texto.data = [t1, t2])
    (h1 : isMMYYYYtok t1 = true) (h2 : isMMYYYYtok t2 = true) :
    (processar_fgts texto).situacao = some "IRREGULAR" ∧
      (processar_fgts texto).debitos.length = 2 ∧
      ∀ d ∈ (processar_fgts texto).debitos,
        d.valor = none ∧ d.situacao = "EM ABERTO" ∧ isYYYYMM d.competencia = true := by
  obtain ⟨n1, hn1, hy1⟩ := mmyyyy_normaliza t1 h1
  obtain ⟨n2, hn2, hy2⟩ := mmyyyy_normaliza t2 h2
  have hp : processar_fgts texto =
      { situacao := some "IRREGULAR",
        debitos := [{ competencia := n1, valor := none, situacao := "EM ABERTO" },
          { competencia := n2, valor := none, situacao := "EM ABERTO" }],
        observacao := none } := by
    unfold processar_fgts
    rw [if_neg (by rw [hreg]; simp)]
    rw [hext]
    simp only [List.foldl_cons, List.foldl_nil, hn1, hn2]
    rfl
  rw [hp]
  refine ⟨rfl, rfl, ?_⟩
  intro d hd
  simp only [List.mem_cons, List.not_mem_nil, or_false] at hd
  rcases hd with rfl | rfl
  · exact ⟨rfl, rfl, hy1⟩
  · exact ⟨rfl, rfl, hy2⟩

/-- C9 witness: a concrete irregular FGTS text whose pendency window holds
exactly the two tokens `01/2024` and `02/2024`. -/
theorem fgts_duas_competencias_witness :
    (processar_fgts "pendencias 01/2024 02/2024").situacao = some "IRREGULAR" ∧
      (processar_fgts "pendencias 01/2024 02/2024").debitos.length = 2 :=
  letI h := fgts_duas_competencias "pendencias 01/2024 02/2024" "01/2024" "02/2024"
    (by decide) (by decide) (by decide) (by decide)
  ⟨h.1, h.2.1⟩

theorem c1_valor_celula : extrairValorDeCelula "1.234,56" = (1234.56 : ℚ) := by
  rw [show extrairValorDeCelula "1.234,56" =
      ((natFromDigits ['1', '2', '3', '4'] : ℚ) +
        (natFromDigits ['5', '6'] : ℚ) / (10 : ℚ) ^ 2) from rfl]
  rw [show natFromDigits ['1', '2', '3', '4'] = 1234 from rfl,
    show natFromDigits ['5', '6'] = 56 from rfl]
  norm_num

theorem c1_try_col : tryCol c1row 2 = some (1234.56 : ℚ) := by
  unfold tryCol
  rw [if_pos (by decide)]
  rw [show (c1row.getD (2 : ℤ).toNat "") = "1.234,56" from rfl]
  rw [if_pos (by decide)]
  rw [c1_valor_celula]
  rw [if_pos (by norm_num)]

theorem c1_valor_linha :
    extrairValorDaLinha c1row (identificarColunas c1header) = some (1234.56 : ℚ) := by
  unfold extrairValorDaLinha
  rw [show identificarColunas c1header =
      { saldo_devedor := 2, saldo_consolidado := -1, valor_original := -1 } from by decide]
  dsimp only
  rw [if_neg (by decide), if_pos (by decide), c1_try_col]

theorem c1_linha :
    processarLinhaTabela c1row (identificarColunas c1header) = some c1cand := by
  unfold processarLinhaTabela
  rw [if_neg (by decide)]
  rw [show findCodigo (linhaCompleta c1row) = some "1138-01" from by decide]
  dsimp only
  rw [c1_valor_linha]
  rw [show (findMMYYYY (linhaCompleta c1row)).bind normalizarCompetencia =
      some "2024-01" from by decide]
  rw [show hasSub "DEVEDOR" (upperL (linhaCompleta c1row)) = true from by decide]
  rw [show classificarCategoria (upperL (linhaCompleta c1row)) "1138-01" =
      some "patronal" from by decide]
  rw [show classificarTributo (upperL (linhaCompleta c1row)) "1138-01" = none from by decide]
  rw [if_pos (by decide)]
  rw [if_neg (by decide)]
  rfl

theorem c1_tabelas : processarTabelas [c1tab] = [c1cand] := by
  unfold processarTabelas
  rw [List.foldl_cons, List.foldl_nil]
  rw [if_neg (by decide)]
  rw [show (c1tab.drop 1) = [c1row] from rfl, show (c1tab.headD []) = c1header from rfl]
  rw [List.filterMap_cons, c1_linha]
  simp

theorem c1_processa :
    processaDebito receitaVazia c1cand =
      { receitaVazia with contribuicoes :=
          { seguro_total := 0, patronal_total := 0 + (1234.56 : ℚ), terceiros_total := 0,
            total_geral := 0, detalhes := [c1item] } } := by
  unfold processaDebito
  dsimp only
  rw [if_neg (by decide)]
  rw [show c1cand.tributo = none from rfl]
  dsimp only
  rw [show c1cand.categoria = some "patronal" from rfl]
  dsimp only
  rw [show c1cand.valor = some (1234.56 : ℚ) from rfl]
  dsimp only
  rw [if_neg (by simp)]
  rw [if_pos ⟨rfl, by norm_num⟩]
  rfl

/-- C1: on a Federal Revenue document whose extracted table holds (after the
header row) the row `["1138-01", "01/2024", "1.234,56", "DEVEDOR"]`, the
parser records exactly one employer-category ('patronal') contribution
detail item, with amount `1234.56` and competency `"2024-01"`, and the
employer running total equals `1234.56`. -/
theorem receita_linha_patronal :
    (processar_receita "" [c1tab]).contribuicoes.detalhes = [c1item] ∧
      c1item.categoria = "patronal" ∧ c1item.valor = some (1234.56 : ℚ) ∧
      c1item.competencia = some "2024-01" ∧
      (processar_receita "" [c1tab]).contribuicoes.patronal_total = (1234.56 : ℚ) := by
  have hmain : (processar_receita "" [c1tab]).contribuicoes =
      { seguro_total := 0, patronal_total := 0 + (1234.56 : ℚ), terceiros_total := 0,
        total_geral := 0 + (0 + (1234.56 : ℚ)) + 0, detalhes := [c1item] } := by
    unfold processar_receita
    rw [c1_tabelas]
    rw [if_neg (by simp)]
    dsimp only
    rw [List.foldl_cons, List.foldl_nil, c1_processa]
    rw [show totalStep ("" : String).data = none from by decide]
  refine ⟨?_, rfl, rfl, rfl, ?_⟩
  · rw [hmain]
  · rw [hmain]
    norm_num

/-- C3: whenever a SISPAR block is detected, every installment record the
parser emits leaves the installment count, total amount, per-installment
amount and covered-competency list unset, and fixes the manual-review flag,
the user-confirmation flag and the review observation. -/
theorem sispar_campos_manuais (texto : String) (tabelas : List (List (List String)))
    (_htem : (processar_receita texto tabelas).sispar.tem_sispar = true) :
    ∀ p ∈ (processar_receita texto tabelas).sispar.parcelamentos,
      p.quantidade_parcelas = none ∧ p.valor_total_parcelado = none ∧
        p.valor_parcela = none ∧ p.competencias = [] ∧
        p.necessita_consulta_manual_pgfn = true ∧ p.conferido_pelo_usuario = false ∧
        p.observacao = SISPAR_OBS := by
  intro p hp
  have hs : (processar_receita texto tabelas).sispar = sisparStep texto.data := by
    unfold processar_receita
    dsimp only
    split <;> rfl
  rw [hs] at hp
  unfold sisparStep at hp
  rcases hb : findSisparBloco texto.data with _ | bloco
  · rw [hb] at hp
    simp at hp
  · rw [hb] at hp
    simp only [List.mem_singleton] at hp
    subst hp
    exact ⟨rfl, rfl, rfl, rfl, rfl, rfl, rfl⟩

/-- C3 witness: the anchor phrase `NEGOCIADA NO SISPAR` alone triggers the
detection and yields one all-manual installment record. -/
theorem sispar_campos_manuais_witness :
    (processar_receita "NEGOCIADA NO SISPAR" []).sispar.tem_sispar = true ∧
      ((processar_receita "NEGOCIADA NO SISPAR" []).sispar.parcelamentos.headD
          default).quantidade_parcelas = none := by
  have h := sispar_campos_manuais "NEGOCIADA NO SISPAR" [] (by decide)
  exact ⟨by decide, (h _ (by decide)).1⟩

/-- C6 witness: with a non-empty border-tax section, the pre-set certificate
observation survives the no-debt rule. -/
theorem regra_sem_debito_preserva_witness :
    (aplicar_regra_sem_debito relComFronteira).sefaz.observacao = some certidaoObsMsg :=
  regra_sem_debito_preserva relComFronteira certidaoObsMsg rfl (by decide) (Or.inl rfl)

theorem tabRowStep_situ (acc : SefazRes) (linha : List String) :
    (tabRowStep acc linha).situacao = acc.situacao := by
  unfold tabRowStep
  split_ifs <;> rfl

theorem foldl_tabRowStep_situ (rows : List (List String)) :
    ∀ acc : SefazRes, (rows.foldl tabRowStep acc).situacao = acc.situacao := by
  induction rows with
  | nil => intro acc; rfl
  | cons h t ih => intro acc; rw [List.foldl_cons, ih, tabRowStep_situ]

theorem tabStep_situ (acc : SefazRes) (tabela : List (List String)) :
    (tabStep acc tabela).situacao = acc.situacao := by
  unfold tabStep
  split_ifs
  · rfl
  · exact foldl_tabRowStep_situ _ _
  · rfl

theorem foldl_tabStep_situ (ts : List (List (List String))) :
    ∀ r : SefazRes, (ts.foldl tabStep r).situacao = r.situacao := by
  induction ts with
  | nil => intro r; rfl
  | cons h t ih => intro r; rw [List.foldl_cons, ih, tabStep_situ]

theorem sefazR1_situ (texto : List Char) (r : SefazRes) :
    (sefazR1 texto r).situacao = r.situacao := by
  unfold sefazR1
  split_ifs <;> rfl

theorem sefazR2deb_situ (texto : List Char) (r : SefazRes) :
    (sefazR2deb texto r).situacao = r.situacao := by
  unfold sefazR2deb
  split_ifs <;> rfl

theorem sefazR2fro_situ (texto : List Char) (r : SefazRes) :
    (sefazR2fro texto r).situacao = r.situacao := by
  unfold sefazR2fro
  split_ifs <;> rfl

theorem sefazR2_situ (texto : List Char) (r : SefazRes) :
    (sefazR2 texto r).situacao = r.situacao := by
  unfold sefazR2
  split_ifs
  · rw [sefazR2fro_situ, sefazR2deb_situ]
  · rfl

theorem sefazR3_situ (tabelas : List (List (List String))) (r : SefazRes) :
    (sefazR3 tabelas r).situacao = r.situacao := by
  unfold sefazR3
  split_ifs
  · exact foldl_tabStep_situ tabelas r
  · rfl

theorem sefazSemDeb_situ (r : SefazRes) : (sefazSemDeb r).situacao = r.situacao := by
  unfold sefazSemDeb
  split_ifs <;> rfl

/-- None of the extraction/fallback steps of `processar_sefaz` changes the
decided `situacao`: a normal return carries the initial status through. -/
theorem sefazResto_situ (texto : List Char) (tabelas : List (List (List String)))
    (td : String) (r0 r : SefazRes) (h : sefazResto texto tabelas td r0 = Except.ok r) :
    r.situacao = r0.situacao := by
  unfold sefazResto at h
  split_ifs at h
  injection h with h'
  rw [← h', sefazSemDeb_situ, sefazR3_situ, sefazR2_situ, sefazR1_situ]

/-- C4: whenever the SEFAZ text contains an irregularity phrase and
`processar_sefaz` returns normally, the returned `situacao` is
`IRREGULAR`, regardless of co-occurring regularity phrases: the
irregularity test runs first and no later step changes the status. -/
theorem sefaz_irregular_prioridade (texto : String) (tabelas : List (List (List String)))
    (r : SefazRes) (hirr : temIrregularSefaz texto.data = true)
    (hok : processar_sefaz texto tabelas = Except.ok r) :
    r.situacao = "IRREGULAR" := by
  unfold processar_sefaz at hok
  rw [if_pos hirr] at hok
  exact (sefazResto_situ _ _ _ _ _ hok).trans rfl

/-- C4 witness: a text containing the irregularity phrases
`irregularidades` and `em atraso` together with the regularity phrases
`situação regular` and `nada consta` processes to a normal result whose
status is `IRREGULAR`. -/
theorem sefaz_irregular_prioridade_witness :
    temIrregularSefaz c4texto.data = true ∧ c4rec.situacao = "IRREGULAR" :=
  ⟨by decide, sefaz_irregular_prioridade c4texto [] c4rec (by decide) (by decide)⟩

/-- C4 counterexample to the unqualified reading: this text contains
irregularity phrases, yet `processar_sefaz` does not return a result at
all — the border-tax evidence (`FRONTEIRA`) steers it into the broken
fallback at `src/parsers/sefaz.py:424`, which raises a `TypeError`. -/
theorem sefaz_irregular_crash_cex :
    temIrregularSefaz c4cexTexto.data = true ∧
      sefazOk (processar_sefaz c4cexTexto []) = false := by
  decide

/-- C7: for a statement-classified text whose structured border-tax
extraction is empty and which contains `ICMS ANTECIPADO`, an `MM/YYYY`
competency and a Brazilian-format amount, `processar_sefaz` does not
complete and record the border-tax item: it raises, because `re.finditer`
at `src/parsers/sefaz.py:424` receives the document text as the pattern
and `re.IGNORECASE` as the string (the intended `padrao_fronteira` of line
423 is never passed), so the claimed fallback path is unreachable. -/
theorem fronteira_fallback_crash :
    identificarTipoDocumento c7texto.data [] = "extrato" ∧
      extrairFronteiras c7texto.data = [] ∧
      hasSub "ICMS ANTECIPADO" (upperL c7texto.data) = true ∧
      (findMMYYYY c7texto.data).isSome = true ∧
      (findMoneyBR c7texto.data).isSome = true ∧
      processar_sefaz c7texto [] = Except.error sefazCrashMsg := by
  decide

/-- C10: for every SEFAZ parse that completes normally, the financial
summary satisfies: `total_ipva` is the sum of `valor_total` over the IPVA
pendency items, `total_icms_fronteira` the sum of `valor_total` over the
border-tax items, `total_divida_ativa` the sum of `valor_consolidado` over
the fiscal-debt items, and `total_geral_consolidado` is the sum of the
four category totals. -/
theorem sefaz_resumo_totais (texto : String) (tabelas : List (List (List String)))
    (prev : Pendencias) (dp : SefazRes)
    (_h : processar_sefaz texto tabelas = Except.ok dp) :
    (montarSefazEstadual prev dp).resumo.total_ipva =
        sumBy (fun d => d.valor_total) (montarSefazEstadual prev dp).pendencias.ipva ∧
      (montarSefazEstadual prev dp).resumo.total_icms_fronteira =
        sumBy (fun d => d.valor_total)
          (montarSefazEstadual prev dp).pendencias.icms_fronteira_antecipado ∧
      (montarSefazEstadual prev dp).resumo.total_divida_ativa =
        sumBy (fun d => d.valor_consolidado)
          (montarSefazEstadual prev dp).pendencias.debitos_fiscais_autuacoes ∧
      (montarSefazEstadual prev dp).resumo.total_geral_consolidado =
        (montarSefazEstadual prev dp).resumo.total_ipva +
          (montarSefazEstadual prev dp).resumo.total_icms_fronteira +
          (montarSefazEstadual prev dp).resumo.total_icms_normal +
          (montarSefazEstadual prev dp).resumo.total_divida_ativa :=
  ⟨rfl, rfl, rfl, rfl⟩

/-- C10 witness: the regular-certificate text `nada consta` parses to a
normal result, and its assembled summary satisfies all four total
identities. -/
theorem sefaz_resumo_totais_witness :
    (montarSefazEstadual pendenciasVazias c10dp).resumo.total_ipva =
        sumBy (fun d => d.valor_total)
          (montarSefazEstadual pendenciasVazias c10dp).pendencias.ipva ∧
      (montarSefazEstadual pendenciasVazias c10dp).resumo.total_icms_fronteira =
        sumBy (fun d => d.valor_total)
          (montarSefazEstadual pendenciasVazias c10dp).pendencias.icms_fronteira_antecipado ∧
      (montarSefazEstadual pendenciasVazias c10dp).resumo.total_divida_ativa =
        sumBy (fun d => d.valor_consolidado)
          (montarSefazEstadual pendenciasVazias c10dp).pendencias.debitos_fiscais_autuacoes ∧
      (montarSefazEstadual pendenciasVazias c10dp).resumo.total_geral_consolidado =
        (montarSefazEstadual pendenciasVazias c10dp).resumo.total_ipva +
          (montarSefazEstadual pendenciasVazias c10dp).resumo.total_icms_fronteira +
          (montarSefazEstadual pendenciasVazias c10dp).resumo.total_icms_normal +
          (montarSefazEstadual pendenciasVazias c10dp).resumo.total_divida_ativa :=
  sefaz_resumo_totais c10texto [] pendenciasVazias c10dp (by decide)

end NEB
